import Mathlib

/-!
# IPPool manager (v1alpha1) of the vSphere paravirtual cloud provider

A shallow embedding of
`pkg/cloudprovider/vsphereparavirtual/ippoolmanager/v1alpha1/ippoolmanager.go`,
followed by a model of the node resolvers of
`pkg/cloudprovider/vsphereparavirtual` (instances and zones) that follows
their specification and their tests.

Modelling conventions.

* A Go slice is an `Option (List α)`: `none` is the nil slice, `some l` a
  non-nil slice with elements `l` (so `some []` is the empty, non-nil slice).
* A Go `error` is an `Option GoError` (`none` is the nil error).
* A pool handle (`helper.NSXIPPool`, an interface) is either a pointer to a
  v1alpha1 `IPPool` or a value of some other dynamic type.
* The typed API client is a record of functions; every operation returns,
  next to its Go results, the object behind the handle as it is after the
  call and the list of objects it submitted to `Update`, oldest first.
* Pointers handed to the operations (`node`, `ownerRef`, the `*IPPool` inside
  a handle) are taken to be non-nil, and `Update` does not write to the object
  it is given.
-/

namespace IPPoolManager

/-! ## Go values -/

/-- A Go slice: `none` is nil, `some l` is non-nil with elements `l`. -/
abbrev Slice (α : Type) := Option (List α)

/-- The elements a `range` loop visits (none for a nil slice). -/
def Slice.elems {α : Type} : Slice α → List α
  | none => []
  | some l => l

/-- Go `len`. -/
def Slice.len {α : Type} (s : Slice α) : Nat := s.elems.length

/-- Go `append(s, x)` with a single element: the result is never nil. -/
def Slice.append {α : Type} (s : Slice α) (x : α) : Slice α :=
  some (s.elems ++ [x])

/-- A Go error value. `upstream` is an error made outside this package (by the
API client); `errorf` is one made here by `fmt.Errorf` without `%w`;
`errorfW` is one made here by `fmt.Errorf` with the error it wraps through
`%w`; `sentinel` is a package-level error variable made once by `errors.New`
and compared by identity. -/
inductive GoError where
  | upstream (msg : String) : GoError
  | errorf (msg : String) : GoError
  | errorfW (msg : String) (wrapped : GoError) : GoError
  | sentinel (msg : String) : GoError
  deriving DecidableEq, Repr

/-- Go `err.Error()`. -/
def GoError.Error : GoError → String
  | .upstream msg => msg
  | .errorf msg => msg
  | .errorfW msg _ => msg
  | .sentinel msg => msg

/-- Go `errors.Unwrap`: the error wrapped through `%w`, if any. -/
def GoError.Unwrap : GoError → Option GoError
  | .errorfW _ wrapped => some wrapped
  | _ => none

/-- Go `errors.Is`: whether `target` is `err` or is reached from `err` by
unwrapping. -/
def GoError.Is : GoError → GoError → Bool
  | .errorfW msg wrapped, target =>
    decide (GoError.errorfW msg wrapped = target) || GoError.Is wrapped target
  | err, target => decide (err = target)

/-- A Go `map[string]string` seen through its lookups. -/
abbrev GoMap := String → Option String

/-- The result of `make(map[string]string)`. -/
def GoMap.make : GoMap := fun _ => none

/-- The map after `m[k] = v`. -/
def GoMap.set (m : GoMap) (k v : String) : GoMap :=
  fun q => if q = k then some v else m q

/-! ## API types -/

/-- The `metav1.OwnerReference` struct. -/
structure OwnerReference where
  APIVersion : String
  Kind : String
  Name : String
  UID : String
  Controller : Option Bool
  BlockOwnerDeletion : Option Bool
  deriving DecidableEq, Repr

/-- The `SubnetRequest` struct, an entry of `spec.subnets`. -/
structure SubnetRequest where
  PrefixLength : Int
  IPFamily : String
  Name : String
  deriving DecidableEq, Repr

/-- The `SubnetResult` struct, an entry of `status.subnets`. -/
structure SubnetResult where
  CIDR : String
  Name : String
  deriving DecidableEq, Repr

/-- The `IPPoolSpec` struct. -/
structure IPPoolSpec where
  Subnets : Slice SubnetRequest
  deriving DecidableEq, Repr

/-- The `IPPoolStatus` struct (the field this package reads). -/
structure IPPoolStatus where
  Subnets : Slice SubnetResult
  deriving DecidableEq, Repr

/-- The v1alpha1 `IPPool` custom resource, with the metadata fields this
package reads or writes. -/
structure IPPool where
  Name : String
  Namespace : String
  OwnerReferences : Slice OwnerReference
  Spec : IPPoolSpec
  Status : IPPoolStatus
  deriving DecidableEq, Repr

/-- The `corev1.NodeSpec` fields this package reads. -/
structure NodeSpec where
  PodCIDR : String
  PodCIDRs : Slice String
  deriving DecidableEq, Repr

/-- The `corev1.Node` fields this package reads. -/
structure Node where
  Name : String
  Spec : NodeSpec
  deriving DecidableEq, Repr

/-- A value of the interface type `helper.NSXIPPool`: a pointer to a v1alpha1
`IPPool` (shown with the object it points to) or a value of another dynamic
type (shown with its type name). -/
inductive NSXIPPool where
  | v1alpha1 (ipp : IPPool) : NSXIPPool
  | other (typeName : String) : NSXIPPool
  deriving DecidableEq, Repr

/-- The constants of package `helper` used here; their values are declared in
that package and are taken as parameters. -/
structure HelperConsts where
  IPFamilyDefault : String
  PrefixLengthDefault : Int
  deriving DecidableEq, Repr

/-- The typed client `p.clients.NsxV1alpha1().IPPools(namespace)`: `Get` takes
the namespace and the name, `Create` and `Update` the namespace and the
object; each answers with the stored object or an error. -/
structure Clients where
  Get : String → String → Except GoError IPPool
  Create : String → IPPool → Except GoError IPPool
  Update : String → IPPool → Except GoError IPPool

/-- Modelled from the spec: the generated `DeepCopy` of `IPPool` lives with the
API types, outside this file; a deep copy is a fresh object with the same field values
(nil slices stay nil, non-nil slices stay non-nil). Freshness shows in the
results of the operations, which report the object behind the handle
separately from the objects sent to the API. -/
def IPPool.DeepCopy (ipp : IPPool) : IPPool := ipp

/-- The `reflect.DeepEqual` of two `[]SubnetResult` element lists of equal
nil-ness: same length and element-wise equal fields. -/
def deepEqualElems : List SubnetResult → List SubnetResult → Bool
  | [], [] => true
  | a :: as, b :: bs => a.CIDR == b.CIDR && a.Name == b.Name && deepEqualElems as bs
  | _, _ => false

/-- The `reflect.DeepEqual` on `[]SubnetResult`: a nil and a non-nil slice are
never deeply equal. -/
def deepEqualSubnets : Slice SubnetResult → Slice SubnetResult → Bool
  | none, none => true
  | some a, some b => deepEqualElems a b
  | _, _ => false

/-! ## Results of the operations -/

/-- What a mutating operation leaves behind: the returned error, the object
behind the handle after the call, and the objects submitted to `Update`. -/
structure Outcome where
  err : Option GoError
  ippool : NSXIPPool
  updates : List IPPool

/-- What `GetIPPoolSubnets` leaves behind: the returned map (`none` is the nil
map), the returned error and the object behind the handle after the call. -/
structure SubnetsOutcome where
  subs : Option GoMap
  err : Option GoError
  ippool : NSXIPPool

/-- What `GetIPPool` leaves behind: the returned handle (`none` when the
client answered with an error, the handle then holding a nil pointer), the
returned error and the (namespace, name) keys it asked the client for. -/
structure GetOutcome where
  ippool : Option NSXIPPool
  err : Option GoError
  gets : List (String × String)

/-- What `CreateIPPool` leaves behind: the returned handle (`none` when the
client answered with an error), the returned error and the objects it
submitted to `Create`, each with the namespace of the request. -/
structure CreateOutcome where
  ippool : Option NSXIPPool
  err : Option GoError
  creates : List (String × IPPool)

/-! ## Operations -/

/-- The method `GetIPPool`; `IppoolNameFromClusterName` of package `helper` is
taken as a parameter. -/
def GetIPPool (IppoolNameFromClusterName : String → String) (c : Clients)
    (clusterNS clusterName : String) : GetOutcome :=
  match c.Get clusterNS (IppoolNameFromClusterName clusterName) with
  | .ok ipp =>
    { ippool := some (.v1alpha1 ipp), err := none,
      gets := [(clusterNS, IppoolNameFromClusterName clusterName)] }
  | .error err =>
    { ippool := none, err := some err,
      gets := [(clusterNS, IppoolNameFromClusterName clusterName)] }

/-- The method `CreateIPPool`; `IppoolNameFromClusterName` of package `helper`
is taken as a parameter. The fields not named in the literal keep their zero
value (`Status.Subnets` is nil). -/
def CreateIPPool (IppoolNameFromClusterName : String → String) (c : Clients)
    (clusterNS clusterName : String) (ownerRef : OwnerReference) : CreateOutcome :=
  let ippool : IPPool :=
    { Name := IppoolNameFromClusterName clusterName,
      Namespace := clusterNS,
      OwnerReferences := some [ownerRef],
      Spec := { Subnets := some [] },
      Status := { Subnets := none } }
  match c.Create clusterNS ippool with
  | .ok created =>
    { ippool := some (.v1alpha1 created), err := none, creates := [(clusterNS, ippool)] }
  | .error err => { ippool := none, err := some err, creates := [(clusterNS, ippool)] }

/-- The method `UpdateIPPool`: one `Update` call in the namespace of the object. -/
def UpdateIPPool (c : Clients) (ippool : IPPool) : Except GoError IPPool :=
  c.Update ippool.Namespace ippool

/-- The loop of `GetIPPoolSubnets`: `subs[sub.Name] = sub.CIDR` for each entry. -/
def getLoop : List SubnetResult → GoMap → GoMap
  | [], subs => subs
  | sub :: rest, subs => getLoop rest (subs.set sub.Name sub.CIDR)

/-- The method `GetIPPoolSubnets`. -/
def GetIPPoolSubnets (ippool : NSXIPPool) : SubnetsOutcome :=
  match ippool with
  | .other _ =>
    { subs := none, err := some (.errorf "unknown ippool type"), ippool := ippool }
  | .v1alpha1 ipp =>
    { subs := some (getLoop ipp.Status.Subnets.elems GoMap.make), err := none,
      ippool := .v1alpha1 ipp }

/-- The loop of `DeleteSubnetFromIPPool`: entries named `subnetName` are
skipped, the others appended to `newSubnets`. -/
def deleteLoop (subnetName : String) : List SubnetRequest → Slice SubnetRequest → Slice SubnetRequest
  | [], newSubnets => newSubnets
  | sub :: rest, newSubnets =>
    if sub.Name = subnetName then deleteLoop subnetName rest newSubnets
    else deleteLoop subnetName rest (newSubnets.append sub)

/-- The method `DeleteSubnetFromIPPool`. The rebuilt list is assigned to
`ipp.Spec.Subnets` of the object behind the handle itself, and that object is
the one submitted to `Update`. -/
def DeleteSubnetFromIPPool (c : Clients) (subnetName : String) (ippool : NSXIPPool) : Outcome :=
  match ippool with
  | .other _ =>
    { err := some (.errorf "unknown ippool type"), ippool := ippool, updates := [] }
  | .v1alpha1 ipp0 =>
    let newSubnets := deleteLoop subnetName ipp0.Spec.Subnets.elems (some [])
    let ipp : IPPool := { ipp0 with Spec := { ipp0.Spec with Subnets := newSubnets } }
    match UpdateIPPool c ipp with
    | .error _ =>
      { err := some (.errorf
          ("fail to update ippool " ++ ipp.Name ++ " in namespace " ++ ipp.Namespace)),
        ippool := .v1alpha1 ipp, updates := [ipp] }
    | .ok _ => { err := none, ippool := .v1alpha1 ipp, updates := [ipp] }

/-- The first loop of `AddSubnetToIPPool`: whether some entry is named `name`
(the loop returns at the first such entry). -/
def alreadyRequested (name : String) : List SubnetRequest → Bool
  | [] => false
  | sub :: rest => if sub.Name = name then true else alreadyRequested name rest

/-- The middle of `AddSubnetToIPPool`, from `newIpp := ipp.DeepCopy()` to the
owner-reference check: the object that is then handed to `UpdateIPPool`. -/
def newIppOf (h : HelperConsts) (node : Node) (ipp : IPPool) (ownerRef : OwnerReference) :
    IPPool :=
  let newIpp := ipp.DeepCopy
  let req : SubnetRequest :=
    { Name := node.Name, IPFamily := h.IPFamilyDefault,
      PrefixLength := h.PrefixLengthDefault }
  let newIpp : IPPool :=
    if node.Spec.PodCIDR = "" ∨ node.Spec.PodCIDRs.len = 0 then
      { newIpp with Spec := { newIpp.Spec with Subnets := newIpp.Spec.Subnets.append req } }
    else newIpp
  if newIpp.OwnerReferences = none then
    { newIpp with OwnerReferences := some [ownerRef] }
  else newIpp

/-- The method `AddSubnetToIPPool`. All changes are made on `newIpp`, the deep
copy; the object behind the handle is not assigned to. -/
def AddSubnetToIPPool (h : HelperConsts) (c : Clients) (node : Node) (ippool : NSXIPPool)
    (ownerRef : OwnerReference) : Outcome :=
  match ippool with
  | .other _ =>
    { err := some (.errorf "unknow ippool struct"), ippool := ippool, updates := [] }
  | .v1alpha1 ipp =>
    if alreadyRequested node.Name ipp.Spec.Subnets.elems then
      { err := none, ippool := .v1alpha1 ipp, updates := [] }
    else
      let newIpp := newIppOf h node ipp ownerRef
      match UpdateIPPool c newIpp with
      | .error err =>
        { err := some (.errorfW
            ("fail to update ippool " ++ ipp.Name ++ " in namespace " ++ ipp.Namespace
              ++ ", err: " ++ err.Error) err),
          ippool := .v1alpha1 ipp, updates := [newIpp] }
      | .ok _ => { err := none, ippool := .v1alpha1 ipp, updates := [newIpp] }

/-- The method `DiffIPPoolSubnets`. -/
def DiffIPPoolSubnets (old cur : NSXIPPool) : Bool :=
  match old with
  | .other _ => false
  | .v1alpha1 oldIPPool =>
    match cur with
    | .other _ => false
    | .v1alpha1 curIPPool => !deepEqualSubnets oldIPPool.Status.Subnets curIPPool.Status.Subnets

/-! ## Vocabulary of the statements -/

/-- The names of the entries of `spec.subnets`, in order. -/
def specNames (ipp : IPPool) : List String :=
  ipp.Spec.Subnets.elems.map (fun sub => sub.Name)

/-- The pool the API holds after a call whose writes were accepted: the last
object submitted, or the pool as it was when nothing was submitted. -/
def storedAfter (before : IPPool) (r : Outcome) : IPPool :=
  r.updates.getLast?.getD before

/-- An API client whose `Update` accepts every object and answers with it;
so does its `Create`, and its `Get` finds nothing. -/
def acceptAll : Clients :=
  { Get := fun _ _ => .error (.upstream "not found"),
    Create := fun _ ipp => .ok ipp,
    Update := fun _ ipp => .ok ipp }

/-- An API client whose `Update` fails with the given error, as do its `Get`
and `Create`. -/
def rejectAll (e : GoError) : Clients :=
  { Get := fun _ _ => .error e, Create := fun _ _ => .error e, Update := fun _ _ => .error e }

/-- The errors by which the operations report a handle that does not hold a
v1alpha1 `IPPool`: the two texts used in the file. -/
def isUnknownPoolType (e : GoError) : Prop :=
  e = .errorf "unknown ippool type" ∨ e = .errorf "unknow ippool struct"

/-- The pools the API holds, each under its (namespace, name) key. -/
abbrev Store := List IPPool

/-- The pool stored under a key, if any. -/
def Store.lookup (s : Store) (ns name : String) : Option IPPool :=
  s.find? (fun p => decide (p.Namespace = ns ∧ p.Name = name))

/-- An API client backed by a store: `Get` answers with the pool under the key
or a not-found error; `Create` refuses an object whose namespace is not that
of the request or whose key is taken and accepts any other; `Update` accepts
an object whose key is held. -/
def storeClients (s : Store) : Clients :=
  { Get := fun ns name =>
      match s.lookup ns name with
      | some p => .ok p
      | none => .error (.upstream "not found"),
    Create := fun ns ipp =>
      if ipp.Namespace ≠ ns then .error (.upstream "bad request")
      else match s.lookup ns ipp.Name with
        | some _ => .error (.upstream "already exists")
        | none => .ok ipp,
    Update := fun ns ipp =>
      match s.lookup ns ipp.Name with
      | some _ => .ok ipp
      | none => .error (.upstream "not found") }

/-- The store after a `CreateIPPool` call: the objects submitted are added
when the call returned no error. -/
def Store.afterCreate (s : Store) (r : CreateOutcome) : Store :=
  match r.err with
  | none => s ++ r.creates.map (fun x => x.2)
  | some _ => s

/-! ## Concrete inputs -/

/-- Sample values for the constants of package `helper`. -/
def sampleConsts : HelperConsts := { IPFamilyDefault := "ipv4", PrefixLengthDefault := 24 }

/-- A sample owner reference. -/
def sampleOwner : OwnerReference :=
  { APIVersion := "v1", Kind := "Cluster", Name := "cluster-1", UID := "uid-1",
    Controller := none, BlockOwnerDeletion := none }

/-- A node with neither `PodCIDR` nor `PodCIDRs` set. -/
def nodeNoCIDR : Node := { Name := "node-1", Spec := { PodCIDR := "", PodCIDRs := none } }

/-- A node with `PodCIDR` set and `PodCIDRs` left nil. -/
def nodeCIDROnly : Node :=
  { Name := "node-1", Spec := { PodCIDR := "10.244.0.0/24", PodCIDRs := none } }

/-- A node with both `PodCIDR` and `PodCIDRs` set. -/
def nodeBothCIDR : Node :=
  { Name := "node-1", Spec := { PodCIDR := "10.244.0.0/24", PodCIDRs := some ["10.244.0.0/24"] } }

/-- A pool with one request, for `node-2`, and no owner references (nil). -/
def poolNode2 : IPPool :=
  { Name := "ippool-1", Namespace := "ns-1", OwnerReferences := none,
    Spec := { Subnets := some [{ Name := "node-2", IPFamily := "ipv4", PrefixLength := 24 }] },
    Status := { Subnets := none } }

/-- A pool with one request, for `node-1`. -/
def poolNode1 : IPPool :=
  { Name := "ippool-1", Namespace := "ns-1", OwnerReferences := some [sampleOwner],
    Spec := { Subnets := some [{ Name := "node-1", IPFamily := "ipv4", PrefixLength := 24 }] },
    Status := { Subnets := none } }

/-- A pool with no request whose owner references are an empty, non-nil list. -/
def poolEmptyOwners : IPPool :=
  { Name := "ippool-1", Namespace := "ns-1", OwnerReferences := some [],
    Spec := { Subnets := some [] }, Status := { Subnets := none } }

/-- A pool whose `status.subnets` is the given slice. -/
def poolWithStatus (subnets : Slice SubnetResult) : IPPool :=
  { Name := "ippool-1", Namespace := "ns-1", OwnerReferences := none,
    Spec := { Subnets := none }, Status := { Subnets := subnets } }

/-- The realized subnet of `node-1`. -/
def realized1 : SubnetResult := { Name := "node-1", CIDR := "10.244.1.0/24" }

/-- The realized subnet of `node-2`. -/
def realized2 : SubnetResult := { Name := "node-2", CIDR := "10.244.2.0/24" }

/-- A sample `IppoolNameFromClusterName`. -/
def sampleIppoolName (clusterName : String) : String := clusterName ++ "-ippool"

/-! ## Instances and zones

The files that resolve a node to its VM-CR (`instances.go`, `zone.go`) are
known here through their tests; the definitions of this section follow the
specification of the VM Identity Resolver and of the Zone Resolver. The watch
cache is left out: every resolution reads the VM-CR collection of the
namespace through the client. -/

/-- Modelled from the spec: the `PowerState` of a VM-CR, an enumeration of
PoweredOn, PoweredOff, Suspended and Unknown. -/
inductive PowerState where
  | PoweredOn : PowerState
  | PoweredOff : PowerState
  | Suspended : PowerState
  | Unknown : PowerState
  deriving DecidableEq, Repr

/-- Modelled from the spec: the VM-CR, with its identity (namespace, name), its
labels, and of its status `BiosUUID`, `PowerState`, `Host` and
`Network.PrimaryIP4` (empty when unset). -/
structure VirtualMachine where
  Namespace : String
  Name : String
  Labels : List (String × String)
  BiosUUID : String
  PowerState : PowerState
  Host : String
  PrimaryIP4 : String
  deriving DecidableEq, Repr

/-- Modelled from the spec: the kinds of node address the resolver emits. -/
inductive NodeAddressType where
  | InternalIP : NodeAddressType
  | Hostname : NodeAddressType
  deriving DecidableEq, Repr

/-- Modelled from the spec: a node address, a (kind, value) pair (fields
`Type` and `Address` in the tests). -/
structure NodeAddress where
  Kind : NodeAddressType
  Address : String
  deriving DecidableEq, Repr

/-- Modelled from the spec: the zone of a node; the spec names a source only
for its failure domain. -/
structure Zone where
  FailureDomain : String
  deriving DecidableEq, Repr

/-- Modelled from the spec: the read side of the VM-CR client, which answers a
read of the VM-CR collection of a namespace with its VM-CRs or with an
upstream failure. -/
structure VMClient where
  VirtualMachines : String → Except GoError (List VirtualMachine)

/-- Modelled from the spec: the resolver `instances` of the tests, a VM-CR
client and the namespace of the cluster (field `namespace` in the tests). -/
structure instances where
  vmClient : VMClient
  clusterNS : String

/-- Modelled from the spec: the resolver `zones` of the tests, a VM-CR client
and the namespace of the cluster (field `namespace` in the tests). -/
structure zones where
  vmClient : VMClient
  clusterNS : String

/-- Modelled from the spec: the fixed prefix of a provider ID. -/
def providerPrefix : String := "vsphere://"

/-- Modelled from the spec: the label that holds the failure-domain name. -/
def zoneLabelKey : String := "topology.kubernetes.io/zone"

/-- Modelled from the spec: the sentinel `cloudprovider.InstanceNotFound`. -/
def InstanceNotFound : GoError := .sentinel "instance not found"

/-- Modelled from the spec: the designated error `errBiosUUIDEmpty` for a VM-CR
whose `BiosUUID` is empty; the spec does not give its text. -/
def errBiosUUIDEmpty : GoError := .sentinel "bios UUID is empty"

/-- Modelled from the spec: the plain error for a provider ID that lacks the
prefix; the spec does not give its text. -/
def errMalformedProviderID : GoError := .errorf "provider ID lacks the prefix vsphere://"

/-- Modelled from the spec: parsing a provider ID strips the prefix; a string
that does not begin with the prefix is rejected (`none`). -/
def parseProviderID (providerID : String) : Option String :=
  if providerPrefix.data.isPrefixOf providerID.data then
    some (String.mk (providerID.data.drop providerPrefix.data.length))
  else none

/-- Modelled from the spec: the outcome of resolving a node identity: the
VM-CR; a match whose `BiosUUID` is empty; no match; or a failed read. -/
inductive Resolved where
  | found (vm : VirtualMachine) : Resolved
  | emptyInstanceID : Resolved
  | notFound : Resolved
  | failed (err : GoError) : Resolved
  deriving DecidableEq, Repr

/-- Modelled from the spec: a match with an empty `BiosUUID` is not a
resolvable instance. -/
def classify : Option VirtualMachine → Resolved
  | none => .notFound
  | some vm => if vm.BiosUUID = "" then .emptyInstanceID else .found vm

/-- Modelled from the spec: resolution on the node-name path looks the name up
in the collection of the namespace. -/
def ResolveByNodeName (c : VMClient) (ns nodeName : String) : Resolved :=
  match c.VirtualMachines ns with
  | .error err => .failed err
  | .ok vms => classify (vms.find? (fun vm => decide (vm.Name = nodeName)))

/-- Modelled from the spec: resolution on the provider-ID path parses the
provider ID and scans the collection of the namespace for a VM-CR whose
`BiosUUID` equals the UUID, compared case-sensitively. -/
def ResolveByProviderID (c : VMClient) (ns providerID : String) : Resolved :=
  match parseProviderID providerID with
  | none => .failed errMalformedProviderID
  | some uuid =>
    match c.VirtualMachines ns with
    | .error err => .failed err
    | .ok vms => classify (vms.find? (fun vm => decide (vm.BiosUUID = uuid)))

/-- Modelled from the spec: `InstanceID` by node name returns the `BiosUUID` of
the VM-CR; an empty `BiosUUID` gives the designated error, no VM-CR gives
`InstanceNotFound`, a failed read gives its error. -/
def instances.InstanceID (i : instances) (nodeName : String) : String × Option GoError :=
  match ResolveByNodeName i.vmClient i.clusterNS nodeName with
  | .found vm => (vm.BiosUUID, none)
  | .emptyInstanceID => ("", some errBiosUUIDEmpty)
  | .notFound => ("", some InstanceNotFound)
  | .failed err => ("", some err)

/-- Modelled from the spec: `InstanceExistsByProviderID` is true when the
resolution succeeds; not-found is folded to `(false, nil)`; any other error is
returned. -/
def instances.InstanceExistsByProviderID (i : instances) (providerID : String) :
    Bool × Option GoError :=
  match ResolveByProviderID i.vmClient i.clusterNS providerID with
  | .found _ => (true, none)
  | .emptyInstanceID => (false, none)
  | .notFound => (false, none)
  | .failed err => (false, some err)

/-- Modelled from the spec: `InstanceShutdownByProviderID` is true when the
resolution succeeds and the power state is PoweredOff; not-found is returned
as an error. -/
def instances.InstanceShutdownByProviderID (i : instances) (providerID : String) :
    Bool × Option GoError :=
  match ResolveByProviderID i.vmClient i.clusterNS providerID with
  | .found vm => (decide (vm.PowerState = .PoweredOff), none)
  | .emptyInstanceID => (false, some InstanceNotFound)
  | .notFound => (false, some InstanceNotFound)
  | .failed err => (false, some err)

/-- Modelled from the spec: the addresses of a VM-CR: one InternalIP entry when
`PrimaryIP4` is non-empty, followed by one Hostname entry, of empty value,
when `Host` is set. -/
def createNodeAddresses (vm : VirtualMachine) : List NodeAddress :=
  (if vm.PrimaryIP4 = "" then [] else [{ Kind := .InternalIP, Address := vm.PrimaryIP4 }])
    ++ (if vm.Host = "" then [] else [{ Kind := .Hostname, Address := "" }])

/-- Modelled from the spec: what the address queries return for an outcome of
the resolution: a non-nil sequence on success, a nil sequence and
`InstanceNotFound` when nothing resolves. -/
def addressesOf : Resolved → Slice NodeAddress × Option GoError
  | .found vm => (some (createNodeAddresses vm), none)
  | .emptyInstanceID => (none, some InstanceNotFound)
  | .notFound => (none, some InstanceNotFound)
  | .failed err => (none, some err)

/-- Modelled from the spec: `NodeAddresses` by node name. -/
def instances.NodeAddresses (i : instances) (nodeName : String) :
    Slice NodeAddress × Option GoError :=
  addressesOf (ResolveByNodeName i.vmClient i.clusterNS nodeName)

/-- Modelled from the spec: `NodeAddressesByProviderID`. -/
def instances.NodeAddressesByProviderID (i : instances) (providerID : String) :
    Slice NodeAddress × Option GoError :=
  addressesOf (ResolveByProviderID i.vmClient i.clusterNS providerID)

/-- Modelled from the spec: what the zone queries return for an outcome of the
resolution: the value of the zone label as failure domain, empty when the
label is absent; `InstanceNotFound` when nothing resolves. -/
def zoneOf : Resolved → Zone × Option GoError
  | .found vm => ({ FailureDomain := (vm.Labels.lookup zoneLabelKey).getD "" }, none)
  | .emptyInstanceID => ({ FailureDomain := "" }, some InstanceNotFound)
  | .notFound => ({ FailureDomain := "" }, some InstanceNotFound)
  | .failed err => ({ FailureDomain := "" }, some err)

/-- Modelled from the spec: `GetZoneByProviderID`. -/
def zones.GetZoneByProviderID (z : zones) (providerID : String) : Zone × Option GoError :=
  zoneOf (ResolveByProviderID z.vmClient z.clusterNS providerID)

/-- Modelled from the spec: `GetZoneByNodeName`. -/
def zones.GetZoneByNodeName (z : zones) (nodeName : String) : Zone × Option GoError :=
  zoneOf (ResolveByNodeName z.vmClient z.clusterNS nodeName)

/-- The VM-CR `vm` is the one of the collection that carries the name. -/
def IsTheVMNamed (vms : List VirtualMachine) (nodeName : String) (vm : VirtualMachine) : Prop :=
  vm ∈ vms ∧ vm.Name = nodeName ∧ ∀ v ∈ vms, v.Name = nodeName → v = vm

/-- The VM-CR `vm` is the one of the collection whose `BiosUUID` is `uuid`. -/
def IsTheVMWithUUID (vms : List VirtualMachine) (uuid : String) (vm : VirtualMachine) : Prop :=
  vm ∈ vms ∧ vm.BiosUUID = uuid ∧ ∀ v ∈ vms, v.BiosUUID = uuid → v = vm

/-- A VM-CR client backed by a list of VM-CRs: a read of a namespace answers
with the VM-CRs of that namespace. -/
def vmStore (all : List VirtualMachine) : VMClient :=
  { VirtualMachines := fun ns => .ok (all.filter (fun vm => decide (vm.Namespace = ns))) }

/-- The namespace of the tests (a sample value). -/
def testClusterNameSpace : String := "test-guest-cluster-ns"

/-- The UUID of the tests. -/
def testVMUUID : String := "1bbf49a7-fbce-4502-bb4c-4c3544cacc9e"

/-- The helper `createTestVM` of the tests. -/
def createTestVM (name ns biosUUID : String) : VirtualMachine :=
  { Namespace := ns, Name := name, Labels := [], BiosUUID := biosUUID,
    PowerState := .Unknown, Host := "", PrimaryIP4 := "" }

/-- The helper `createTestVMWithVMIPAndHost` of the tests. -/
def createTestVMWithVMIPAndHost (name ns biosUUID : String) : VirtualMachine :=
  { Namespace := ns, Name := name, Labels := [], BiosUUID := biosUUID,
    PowerState := .Unknown, Host := "test-host", PrimaryIP4 := "1.2.3.4" }

/-- The helper `createTestVMWithZoneID` of the tests. -/
def createTestVMWithZoneID (name ns biosUUID : String) : VirtualMachine :=
  { Namespace := ns, Name := name, Labels := [("topology.kubernetes.io/zone", "zone-a")],
    BiosUUID := biosUUID, PowerState := .Unknown, Host := "", PrimaryIP4 := "" }

/-- The resolver of the tests over a single VM-CR. -/
def testInstances (testVM : VirtualMachine) : instances :=
  { vmClient := vmStore [testVM], clusterNS := testClusterNameSpace }

/-- The zone resolver of the tests over a single VM-CR. -/
def testZones (testVM : VirtualMachine) : zones :=
  { vmClient := vmStore [testVM], clusterNS := testClusterNameSpace }

/-! ## Lemmas on the loops -/

theorem alreadyRequested_iff_mem (name : String) (l : List SubnetRequest) :
    alreadyRequested name l = true ↔ name ∈ l.map (fun sub => sub.Name) := by
  induction l with
  | nil => simp [alreadyRequested]
  | cons a l ih =>
    by_cases ha : a.Name = name
    · simp [alreadyRequested, ha]
    · have hb : ¬ name = a.Name := fun e => ha e.symm
      simp only [alreadyRequested, ha, if_false, List.map_cons, List.mem_cons, hb, false_or]
      exact ih

theorem alreadyRequested_false_iff (name : String) (l : List SubnetRequest) :
    alreadyRequested name l = false ↔ name ∉ l.map (fun sub => sub.Name) := by
  rw [← alreadyRequested_iff_mem]
  cases alreadyRequested name l <;> simp

theorem deleteLoop_some (subnetName : String) (l acc : List SubnetRequest) :
    deleteLoop subnetName l (some acc)
      = some (acc ++ l.filter (fun sub => decide (sub.Name ≠ subnetName))) := by
  induction l generalizing acc with
  | nil => simp [deleteLoop]
  | cons a l ih =>
    by_cases ha : a.Name = subnetName
    · simp [deleteLoop, ha, ih]
    · simp [deleteLoop, ha, ih, Slice.append, Slice.elems]

theorem getLoop_apply (l : List SubnetResult) (m : GoMap) (n : String) :
    getLoop l m n
      = match l.reverse.find? (fun e => decide (e.Name = n)) with
        | some e => some e.CIDR
        | none => m n := by
  induction l generalizing m with
  | nil => simp [getLoop]
  | cons a l ih =>
    rw [getLoop, ih, List.reverse_cons, List.find?_append]
    cases hf : l.reverse.find? (fun e => decide (e.Name = n)) with
    | some e => simp
    | none =>
      by_cases ha : a.Name = n
      · simp [GoMap.set, ha]
      · have hb : ¬ n = a.Name := fun e => ha e.symm
        simp [GoMap.set, ha, hb]

theorem deepEqualElems_iff (a b : List SubnetResult) :
    deepEqualElems a b = true ↔ a = b := by
  induction a generalizing b with
  | nil => cases b <;> simp [deepEqualElems]
  | cons x xs ih =>
    cases b with
    | nil => simp [deepEqualElems]
    | cons y ys =>
      cases x; cases y
      simp [deepEqualElems, ih, and_assoc]

theorem deepEqualSubnets_iff (a b : Slice SubnetResult) :
    deepEqualSubnets a b = true ↔ a = b := by
  cases a <;> cases b <;> simp [deepEqualSubnets, deepEqualElems_iff]

theorem newIppOf_subnets (h : HelperConsts) (node : Node) (ipp : IPPool)
    (ownerRef : OwnerReference) :
    (newIppOf h node ipp ownerRef).Spec.Subnets =
      (if node.Spec.PodCIDR = "" ∨ node.Spec.PodCIDRs.len = 0 then
        ipp.Spec.Subnets.append
          { Name := node.Name, IPFamily := h.IPFamilyDefault,
            PrefixLength := h.PrefixLengthDefault }
      else ipp.Spec.Subnets) := by
  unfold newIppOf IPPool.DeepCopy
  by_cases h1 : node.Spec.PodCIDR = "" ∨ node.Spec.PodCIDRs.len = 0 <;>
    by_cases h2 : ipp.OwnerReferences = none <;> simp [h1, h2]

theorem newIppOf_ownerReferences (h : HelperConsts) (node : Node) (ipp : IPPool)
    (ownerRef : OwnerReference) :
    (newIppOf h node ipp ownerRef).OwnerReferences =
      (if ipp.OwnerReferences = none then some [ownerRef] else ipp.OwnerReferences) := by
  unfold newIppOf IPPool.DeepCopy
  by_cases h1 : node.Spec.PodCIDR = "" ∨ node.Spec.PodCIDRs.len = 0 <;>
    by_cases h2 : ipp.OwnerReferences = none <;> simp [h1, h2]

/-- What `AddSubnetToIPPool` does when no entry carries the node's name: the
one object submitted is `newIpp`, and the object behind the handle stays as it
was. -/
theorem add_not_requested (h : HelperConsts) (c : Clients) (node : Node) (ipp : IPPool)
    (ownerRef : OwnerReference)
    (hnr : alreadyRequested node.Name ipp.Spec.Subnets.elems = false) :
    (AddSubnetToIPPool h c node (.v1alpha1 ipp) ownerRef).updates
        = [newIppOf h node ipp ownerRef] ∧
      (AddSubnetToIPPool h c node (.v1alpha1 ipp) ownerRef).ippool = .v1alpha1 ipp := by
  unfold AddSubnetToIPPool
  simp only [hnr, Bool.false_eq_true, if_false]
  split <;> exact ⟨rfl, rfl⟩

/-- What `AddSubnetToIPPool` does when an entry already carries the node's
name: nothing is submitted and nil is returned. -/
theorem add_requested (h : HelperConsts) (c : Clients) (node : Node) (ipp : IPPool)
    (ownerRef : OwnerReference)
    (hr : alreadyRequested node.Name ipp.Spec.Subnets.elems = true) :
    AddSubnetToIPPool h c node (.v1alpha1 ipp) ownerRef
      = { err := none, ippool := .v1alpha1 ipp, updates := [] } := by
  simp [AddSubnetToIPPool, hr]

/-- What `DeleteSubnetFromIPPool` does on a v1alpha1 pool: the object behind
the handle gets the rebuilt list and is the one object submitted. -/
theorem delete_v1alpha1 (c : Clients) (subnetName : String) (ipp : IPPool) :
    (DeleteSubnetFromIPPool c subnetName (.v1alpha1 ipp)).updates
        = [{ ipp with Spec := { Subnets := some (ipp.Spec.Subnets.elems.filter
              (fun sub => decide (sub.Name ≠ subnetName))) } }] ∧
      (DeleteSubnetFromIPPool c subnetName (.v1alpha1 ipp)).ippool
        = .v1alpha1 { ipp with Spec := { Subnets := some (ipp.Spec.Subnets.elems.filter
              (fun sub => decide (sub.Name ≠ subnetName))) } } := by
  simp only [DeleteSubnetFromIPPool, deleteLoop_some, List.nil_append]
  split <;> exact ⟨rfl, rfl⟩

/-! ## Adding a request -/

/-- C1: for a node with neither `PodCIDR` nor `PodCIDRs` set and a pool with at
most one `spec.subnets` entry per name, calling `AddSubnetToIPPool` and then
calling it again on the pool left by the first call leaves exactly one entry
named `node.Name`; the second call submits nothing. -/
theorem AddSubnetToIPPool_idempotent (h : HelperConsts) (c1 c2 : Clients) (node : Node)
    (ipp : IPPool) (ownerRef : OwnerReference)
    (hcidr : node.Spec.PodCIDR = "" ∧ node.Spec.PodCIDRs.len = 0)
    (hnd : (specNames ipp).Nodup) :
    (specNames
        (storedAfter (storedAfter ipp (AddSubnetToIPPool h c1 node (.v1alpha1 ipp) ownerRef))
          (AddSubnetToIPPool h c2 node
            (.v1alpha1 (storedAfter ipp (AddSubnetToIPPool h c1 node (.v1alpha1 ipp) ownerRef)))
            ownerRef))).count node.Name = 1 ∧
      (AddSubnetToIPPool h c2 node
        (.v1alpha1 (storedAfter ipp (AddSubnetToIPPool h c1 node (.v1alpha1 ipp) ownerRef)))
        ownerRef).updates = [] := by
  cases hreq : alreadyRequested node.Name ipp.Spec.Subnets.elems with
  | true =>
    have hmem : node.Name ∈ specNames ipp := (alreadyRequested_iff_mem _ _).1 hreq
    simp only [add_requested h c1 node ipp ownerRef hreq, add_requested h c2 node ipp ownerRef hreq,
      storedAfter, List.getLast?_nil, Option.getD_none, and_true]
    exact List.count_eq_one_of_mem hnd hmem
  | false =>
    have hnot : node.Name ∉ specNames ipp := (alreadyRequested_false_iff _ _).1 hreq
    have hw := (add_not_requested h c1 node ipp ownerRef hreq).1
    have hsub := newIppOf_subnets h node ipp ownerRef
    rw [if_pos (Or.inl hcidr.1)] at hsub
    have hst : storedAfter ipp (AddSubnetToIPPool h c1 node (.v1alpha1 ipp) ownerRef)
        = newIppOf h node ipp ownerRef := by
      simp [storedAfter, hw]
    have hnames : specNames (newIppOf h node ipp ownerRef) = specNames ipp ++ [node.Name] := by
      simp [specNames, hsub, Slice.append, Slice.elems]
    have hreq2 : alreadyRequested node.Name (newIppOf h node ipp ownerRef).Spec.Subnets.elems
        = true := by
      rw [alreadyRequested_iff_mem]
      have : node.Name ∈ specNames (newIppOf h node ipp ownerRef) := by simp [hnames]
      exact this
    rw [hst, add_requested h c2 node _ ownerRef hreq2]
    simp only [storedAfter, List.getLast?_nil, Option.getD_none, and_true, hnames]
    rw [List.count_append, List.count_eq_zero_of_not_mem hnot]
    simp

/-- Witness of C1 on a pool that holds a request of another node. -/
theorem AddSubnetToIPPool_idempotent_witness :
    (nodeNoCIDR.Spec.PodCIDR = "" ∧ nodeNoCIDR.Spec.PodCIDRs.len = 0) ∧
      (specNames poolNode2).Nodup ∧
      ((specNames
        (storedAfter
          (storedAfter poolNode2
            (AddSubnetToIPPool sampleConsts acceptAll nodeNoCIDR (.v1alpha1 poolNode2) sampleOwner))
          (AddSubnetToIPPool sampleConsts acceptAll nodeNoCIDR
            (.v1alpha1 (storedAfter poolNode2
              (AddSubnetToIPPool sampleConsts acceptAll nodeNoCIDR (.v1alpha1 poolNode2)
                sampleOwner)))
            sampleOwner))).count nodeNoCIDR.Name = 1 ∧
      (AddSubnetToIPPool sampleConsts acceptAll nodeNoCIDR
        (.v1alpha1 (storedAfter poolNode2
          (AddSubnetToIPPool sampleConsts acceptAll nodeNoCIDR (.v1alpha1 poolNode2) sampleOwner)))
        sampleOwner).updates = []) :=
  ⟨by decide, by decide,
    AddSubnetToIPPool_idempotent sampleConsts acceptAll acceptAll nodeNoCIDR poolNode2 sampleOwner
      (by decide) (by decide)⟩

/-- C2 fails on the code: for a node with `PodCIDR` set and `PodCIDRs` nil, on a
pool with no request of that name, the guard
`PodCIDR == "" || len(PodCIDRs) == 0` holds and a request is appended to the
pool that is written back, against the comment on that guard, which has the
request added only when the node does not contain a pod CIDR. -/
theorem AddSubnetToIPPool_appends_when_only_PodCIDR_set :
    nodeCIDROnly.Spec.PodCIDR ≠ "" ∧
      nodeCIDROnly.Name ∉ specNames poolNode2 ∧
      (AddSubnetToIPPool sampleConsts acceptAll nodeCIDROnly (.v1alpha1 poolNode2)
          sampleOwner).updates.map (fun q => q.Spec.Subnets)
        = [some [{ Name := "node-2", IPFamily := "ipv4", PrefixLength := 24 },
                 { Name := "node-1", IPFamily := "ipv4", PrefixLength := 24 }]] ∧
      (AddSubnetToIPPool sampleConsts acceptAll nodeCIDROnly (.v1alpha1 poolNode2)
          sampleOwner).updates.map (fun q => q.Spec.Subnets)
        ≠ [poolNode2.Spec.Subnets] := by
  decide

/-- The other side of the guard: for a node with `PodCIDR` non-empty and
`PodCIDRs` non-empty and a pool with no request named `node.Name`,
`AddSubnetToIPPool` submits one pool, whose `spec.subnets` equals that of the
pool it was given. -/
theorem AddSubnetToIPPool_keeps_subnets_when_both_set (h : HelperConsts) (c : Clients)
    (node : Node) (ipp : IPPool) (ownerRef : OwnerReference)
    (hcidr : node.Spec.PodCIDR ≠ "" ∧ node.Spec.PodCIDRs.len ≠ 0)
    (hnr : node.Name ∉ specNames ipp) :
    ∃ q : IPPool, (AddSubnetToIPPool h c node (.v1alpha1 ipp) ownerRef).updates = [q] ∧
      q.Spec.Subnets = ipp.Spec.Subnets := by
  have hreq := (alreadyRequested_false_iff node.Name ipp.Spec.Subnets.elems).2 hnr
  refine ⟨_, (add_not_requested h c node ipp ownerRef hreq).1, ?_⟩
  rw [newIppOf_subnets, if_neg]
  rintro (h1 | h2)
  · exact hcidr.1 h1
  · exact hcidr.2 h2

/-- The other side of the guard on a node with both fields set. -/
theorem AddSubnetToIPPool_keeps_subnets_when_both_set_witness :
    (nodeBothCIDR.Spec.PodCIDR ≠ "" ∧ nodeBothCIDR.Spec.PodCIDRs.len ≠ 0) ∧
      nodeBothCIDR.Name ∉ specNames poolNode2 ∧
      ∃ q : IPPool,
        (AddSubnetToIPPool sampleConsts acceptAll nodeBothCIDR (.v1alpha1 poolNode2)
          sampleOwner).updates = [q] ∧
        q.Spec.Subnets = poolNode2.Spec.Subnets :=
  ⟨by decide, by decide,
    AddSubnetToIPPool_keeps_subnets_when_both_set sampleConsts acceptAll nodeBothCIDR poolNode2
      sampleOwner (by decide) (by decide)⟩

/-- C3: when `spec.subnets` already has an entry named `node.Name`,
`AddSubnetToIPPool` returns nil, submits no update and leaves the pool as it
was, whatever the node's pod CIDR fields, the pool's owner references and the
owner reference passed in are. -/
theorem AddSubnetToIPPool_skips_existing (h : HelperConsts) (c : Clients) (node : Node)
    (ipp : IPPool) (ownerRef : OwnerReference) (hmem : node.Name ∈ specNames ipp) :
    (AddSubnetToIPPool h c node (.v1alpha1 ipp) ownerRef).err = none ∧
      (AddSubnetToIPPool h c node (.v1alpha1 ipp) ownerRef).updates = [] ∧
      (AddSubnetToIPPool h c node (.v1alpha1 ipp) ownerRef).ippool = .v1alpha1 ipp := by
  have hreq := (alreadyRequested_iff_mem node.Name ipp.Spec.Subnets.elems).2 hmem
  rw [add_requested h c node ipp ownerRef hreq]
  exact ⟨rfl, rfl, rfl⟩

/-- Witness of C3 on a pool that holds the request of the node, with a client
that would reject any update. -/
theorem AddSubnetToIPPool_skips_existing_witness :
    nodeNoCIDR.Name ∈ specNames poolNode1 ∧
      (AddSubnetToIPPool sampleConsts (rejectAll (.upstream "conflict")) nodeNoCIDR
        (.v1alpha1 poolNode1) sampleOwner).err = none ∧
      (AddSubnetToIPPool sampleConsts (rejectAll (.upstream "conflict")) nodeNoCIDR
        (.v1alpha1 poolNode1) sampleOwner).updates = [] ∧
      (AddSubnetToIPPool sampleConsts (rejectAll (.upstream "conflict")) nodeNoCIDR
        (.v1alpha1 poolNode1) sampleOwner).ippool = .v1alpha1 poolNode1 :=
  ⟨by decide,
    AddSubnetToIPPool_skips_existing sampleConsts (rejectAll (.upstream "conflict")) nodeNoCIDR
      poolNode1 sampleOwner (by decide)⟩

/-- C4: for a node with neither `PodCIDR` nor `PodCIDRs` set and a pool with no
request named `node.Name`, `AddSubnetToIPPool` submits one pool whose
`spec.subnets` is that of the pool given, in the same order, followed by the
entry with `node.Name` and the two defaults; the pool given is left as it
was. -/
theorem AddSubnetToIPPool_appends_request (h : HelperConsts) (c : Clients) (node : Node)
    (ipp : IPPool) (ownerRef : OwnerReference)
    (hcidr : node.Spec.PodCIDR = "" ∧ node.Spec.PodCIDRs.len = 0)
    (hnr : node.Name ∉ specNames ipp) :
    (∃ q : IPPool, (AddSubnetToIPPool h c node (.v1alpha1 ipp) ownerRef).updates = [q] ∧
      q.Spec.Subnets = some (ipp.Spec.Subnets.elems ++
        [{ Name := node.Name, IPFamily := h.IPFamilyDefault,
           PrefixLength := h.PrefixLengthDefault }])) ∧
      (AddSubnetToIPPool h c node (.v1alpha1 ipp) ownerRef).ippool = .v1alpha1 ipp := by
  have hreq := (alreadyRequested_false_iff node.Name ipp.Spec.Subnets.elems).2 hnr
  have hw := add_not_requested h c node ipp ownerRef hreq
  refine ⟨⟨_, hw.1, ?_⟩, hw.2⟩
  rw [newIppOf_subnets, if_pos (Or.inl hcidr.1)]
  rfl

/-- Witness of C4 on a pool that holds a request of another node. -/
theorem AddSubnetToIPPool_appends_request_witness :
    (nodeNoCIDR.Spec.PodCIDR = "" ∧ nodeNoCIDR.Spec.PodCIDRs.len = 0) ∧
      nodeNoCIDR.Name ∉ specNames poolNode2 ∧
      (∃ q : IPPool,
        (AddSubnetToIPPool sampleConsts acceptAll nodeNoCIDR (.v1alpha1 poolNode2)
          sampleOwner).updates = [q] ∧
        q.Spec.Subnets = some (poolNode2.Spec.Subnets.elems ++
          [{ Name := nodeNoCIDR.Name, IPFamily := sampleConsts.IPFamilyDefault,
             PrefixLength := sampleConsts.PrefixLengthDefault }])) ∧
      (AddSubnetToIPPool sampleConsts acceptAll nodeNoCIDR (.v1alpha1 poolNode2)
        sampleOwner).ippool = .v1alpha1 poolNode2 :=
  ⟨by decide, by decide,
    AddSubnetToIPPool_appends_request sampleConsts acceptAll nodeNoCIDR poolNode2 sampleOwner
      (by decide) (by decide)⟩

/-! ## Removing a request -/

/-- C5: `DeleteSubnetFromIPPool` submits exactly one pool, whatever the client
answers; its `spec.subnets` holds exactly the entries of the pool given whose
name differs from `subnetName`, in their order; when no entry is named
`subnetName` these are the entries of the pool given. -/
theorem DeleteSubnetFromIPPool_rebuilds (c : Clients) (subnetName : String) (ipp : IPPool) :
    ∃ q : IPPool, (DeleteSubnetFromIPPool c subnetName (.v1alpha1 ipp)).updates = [q] ∧
      q.Spec.Subnets.elems
        = ipp.Spec.Subnets.elems.filter (fun sub => decide (sub.Name ≠ subnetName)) ∧
      (subnetName ∉ specNames ipp → q.Spec.Subnets.elems = ipp.Spec.Subnets.elems) := by
  refine ⟨_, (delete_v1alpha1 c subnetName ipp).1, rfl, ?_⟩
  intro hnot
  show List.filter _ _ = _
  rw [List.filter_eq_self]
  intro sub hsub
  have : sub.Name ≠ subnetName := by
    intro e
    apply hnot
    rw [← e]
    exact List.mem_map_of_mem (fun sub => sub.Name) hsub
  simpa using this

/-- Witness of C5: removing an absent name from a pool, with a client that
rejects the update. -/
theorem DeleteSubnetFromIPPool_rebuilds_witness :
    "node-1" ∉ specNames poolNode2 ∧
      ∃ q : IPPool,
        (DeleteSubnetFromIPPool (rejectAll (.upstream "conflict")) "node-1"
          (.v1alpha1 poolNode2)).updates = [q] ∧
        q.Spec.Subnets.elems = poolNode2.Spec.Subnets.elems :=
  ⟨by decide,
    (DeleteSubnetFromIPPool_rebuilds (rejectAll (.upstream "conflict")) "node-1" poolNode2).elim
      (fun q hq => ⟨q, hq.1, hq.2.2 (by decide)⟩)⟩

/-- C6 fails on the code: `DeleteSubnetFromIPPool` assigns the rebuilt list to
the pool object it was given. After removing `node-1` from a pool that holds
only that request, the object behind the handle has an empty `spec.subnets`,
and it is this very object that was submitted. -/
theorem DeleteSubnetFromIPPool_changes_given_pool :
    (DeleteSubnetFromIPPool acceptAll "node-1" (.v1alpha1 poolNode1)).ippool
        = .v1alpha1 { poolNode1 with Spec := { Subnets := some [] } } ∧
      (DeleteSubnetFromIPPool acceptAll "node-1" (.v1alpha1 poolNode1)).ippool
        ≠ .v1alpha1 poolNode1 ∧
      (DeleteSubnetFromIPPool acceptAll "node-1" (.v1alpha1 poolNode1)).updates
        = [{ poolNode1 with Spec := { Subnets := some [] } }] := by
  decide

/-- C7: when the names in `spec.subnets` are pairwise distinct, they are so
again in every pool submitted by `AddSubnetToIPPool` (any node, any owner
reference) and in every pool submitted by `DeleteSubnetFromIPPool` (any
name). -/
theorem specNames_nodup_preserved (h : HelperConsts) (c : Clients) (node : Node)
    (subnetName : String) (ipp : IPPool) (ownerRef : OwnerReference)
    (hnd : (specNames ipp).Nodup) :
    (∀ q ∈ (AddSubnetToIPPool h c node (.v1alpha1 ipp) ownerRef).updates,
        (specNames q).Nodup) ∧
      (∀ q ∈ (DeleteSubnetFromIPPool c subnetName (.v1alpha1 ipp)).updates,
        (specNames q).Nodup) := by
  constructor
  · cases hreq : alreadyRequested node.Name ipp.Spec.Subnets.elems with
    | true => simp [add_requested h c node ipp ownerRef hreq]
    | false =>
      have hnot : node.Name ∉ specNames ipp := (alreadyRequested_false_iff _ _).1 hreq
      rw [(add_not_requested h c node ipp ownerRef hreq).1]
      intro q hq
      rw [List.mem_singleton] at hq
      subst hq
      unfold specNames
      rw [newIppOf_subnets]
      split
      · simp only [Slice.append, Slice.elems, List.map_append, List.map_cons, List.map_nil]
        rw [List.nodup_append]
        refine ⟨hnd, List.nodup_singleton _, ?_⟩
        intro a ha hb
        rw [List.mem_singleton] at hb
        subst hb
        exact hnot ha
      · exact hnd
  · rw [(delete_v1alpha1 c subnetName ipp).1]
    intro q hq
    rw [List.mem_singleton] at hq
    subst hq
    exact (List.filter_sublist _).map _ |>.nodup hnd

/-- Witness of C7 on a pool with one request: both operations submit a pool,
and its names are pairwise distinct. -/
theorem specNames_nodup_preserved_witness :
    (specNames poolNode2).Nodup ∧
      (AddSubnetToIPPool sampleConsts acceptAll nodeNoCIDR (.v1alpha1 poolNode2)
        sampleOwner).updates ≠ [] ∧
      (DeleteSubnetFromIPPool acceptAll "node-2" (.v1alpha1 poolNode2)).updates ≠ [] ∧
      (∀ q ∈ (AddSubnetToIPPool sampleConsts acceptAll nodeNoCIDR (.v1alpha1 poolNode2)
          sampleOwner).updates, (specNames q).Nodup) ∧
      (∀ q ∈ (DeleteSubnetFromIPPool acceptAll "node-2" (.v1alpha1 poolNode2)).updates,
          (specNames q).Nodup) :=
  ⟨by decide, by decide, by decide,
    specNames_nodup_preserved sampleConsts acceptAll nodeNoCIDR "node-2" poolNode2 sampleOwner
      (by decide)⟩

/-! ## Realized subnets -/

/-- C8, as stated, fails: a pool whose `status.subnets` is nil and one whose
`status.subnets` is empty but not nil have the same sequence of entries, and
`DiffIPPoolSubnets` reports a change between them. -/
theorem DiffIPPoolSubnets_nil_versus_empty :
    (poolWithStatus none).Status.Subnets.elems = (poolWithStatus (some [])).Status.Subnets.elems ∧
      DiffIPPoolSubnets (.v1alpha1 (poolWithStatus none)) (.v1alpha1 (poolWithStatus (some [])))
        = true := by
  decide

/-- C8, amended: for two pools, `DiffIPPoolSubnets` is true exactly when their
`status.subnets` differ as ordered sequences of entries or exactly one of the
two is nil. Hence it is false on a pool and itself, and true whenever the
sequences differ (a changed CIDR, an added or removed subnet, a reordering
that changes the sequence). -/
theorem DiffIPPoolSubnets_iff (old cur : IPPool) :
    (DiffIPPoolSubnets (.v1alpha1 old) (.v1alpha1 cur) = true ↔
        (old.Status.Subnets.elems ≠ cur.Status.Subnets.elems ∨
          old.Status.Subnets.isSome ≠ cur.Status.Subnets.isSome)) ∧
      DiffIPPoolSubnets (.v1alpha1 old) (.v1alpha1 old) = false ∧
      (old.Status.Subnets.elems ≠ cur.Status.Subnets.elems →
        DiffIPPoolSubnets (.v1alpha1 old) (.v1alpha1 cur) = true) := by
  have key : DiffIPPoolSubnets (.v1alpha1 old) (.v1alpha1 cur) = true ↔
      old.Status.Subnets ≠ cur.Status.Subnets := by
    simp only [DiffIPPoolSubnets, Bool.not_eq_true', ne_eq]
    rw [← deepEqualSubnets_iff]
    cases deepEqualSubnets old.Status.Subnets cur.Status.Subnets <;> simp
  have split : old.Status.Subnets ≠ cur.Status.Subnets ↔
      (old.Status.Subnets.elems ≠ cur.Status.Subnets.elems ∨
        old.Status.Subnets.isSome ≠ cur.Status.Subnets.isSome) := by
    cases old.Status.Subnets <;> cases cur.Status.Subnets <;> simp [Slice.elems]
  refine ⟨key.trans split, ?_, fun hne => (key.trans split).2 (Or.inl hne)⟩
  have hself : deepEqualSubnets old.Status.Subnets old.Status.Subnets = true :=
    (deepEqualSubnets_iff _ _).2 rfl
  simp [DiffIPPoolSubnets, hself]

/-- Witness of the amended C8: the same two entries in the other order. -/
theorem DiffIPPoolSubnets_iff_witness :
    (poolWithStatus (some [realized1, realized2])).Status.Subnets.elems
        ≠ (poolWithStatus (some [realized2, realized1])).Status.Subnets.elems ∧
      DiffIPPoolSubnets (.v1alpha1 (poolWithStatus (some [realized1, realized2])))
        (.v1alpha1 (poolWithStatus (some [realized2, realized1]))) = true :=
  ⟨by decide,
    (DiffIPPoolSubnets_iff (poolWithStatus (some [realized1, realized2]))
      (poolWithStatus (some [realized2, realized1]))).2.2 (by decide)⟩

/-- C9: on a v1alpha1 pool `GetIPPoolSubnets` returns a map and a nil error
and leaves the pool as it was; the map has a key `n` exactly when some
`status.subnets` entry is named `n`, and sends `n` to the CIDR of the last
entry named `n`; with pairwise distinct names every entry is sent to its own
CIDR. -/
theorem GetIPPoolSubnets_projects (ipp : IPPool) :
    ∃ m : GoMap, (GetIPPoolSubnets (.v1alpha1 ipp)).subs = some m ∧
      (∀ n : String, (m n).isSome = true ↔ ∃ e ∈ ipp.Status.Subnets.elems, e.Name = n) ∧
      (∀ n : String, m n =
        (ipp.Status.Subnets.elems.reverse.find? (fun e => decide (e.Name = n))).map
          (fun e => e.CIDR)) ∧
      ((ipp.Status.Subnets.elems.map (fun e => e.Name)).Nodup →
        ∀ e ∈ ipp.Status.Subnets.elems, m e.Name = some e.CIDR) ∧
      (GetIPPoolSubnets (.v1alpha1 ipp)).err = none ∧
      (GetIPPoolSubnets (.v1alpha1 ipp)).ippool = .v1alpha1 ipp := by
  have hlast : ∀ n : String, getLoop ipp.Status.Subnets.elems GoMap.make n =
      (ipp.Status.Subnets.elems.reverse.find? (fun e => decide (e.Name = n))).map
        (fun e => e.CIDR) := by
    intro n
    rw [getLoop_apply]
    cases ipp.Status.Subnets.elems.reverse.find? (fun e => decide (e.Name = n)) <;>
      simp [GoMap.make]
  refine ⟨getLoop ipp.Status.Subnets.elems GoMap.make, rfl, ?_, hlast, ?_, rfl, rfl⟩
  · intro n
    rw [hlast n, Option.isSome_map', List.find?_isSome]
    constructor
    · rintro ⟨e, he, hn⟩
      exact ⟨e, List.mem_reverse.1 he, by simpa using hn⟩
    · rintro ⟨e, he, hn⟩
      exact ⟨e, List.mem_reverse.2 he, by simpa using hn⟩
  · intro hnd e he
    rw [hlast e.Name]
    cases hf : ipp.Status.Subnets.elems.reverse.find? (fun x => decide (x.Name = e.Name)) with
    | none =>
      have := List.find?_eq_none.1 hf e (List.mem_reverse.2 he)
      simp at this
    | some x =>
      have hx : x ∈ ipp.Status.Subnets.elems := List.mem_reverse.1 (List.mem_of_find?_eq_some hf)
      have hname : x.Name = e.Name := by simpa using List.find?_some hf
      have : x = e := List.inj_on_of_nodup_map hnd hx he hname
      simp [this]

/-- Witness of C9 on a pool with two realized subnets of distinct names. -/
theorem GetIPPoolSubnets_projects_witness :
    ((poolWithStatus (some [realized1, realized2])).Status.Subnets.elems.map
        (fun e => e.Name)).Nodup ∧
      ∃ m : GoMap,
        (GetIPPoolSubnets (.v1alpha1 (poolWithStatus (some [realized1, realized2])))).subs
          = some m ∧
        m "node-1" = some "10.244.1.0/24" ∧ m "node-2" = some "10.244.2.0/24" :=
  ⟨by decide,
    (GetIPPoolSubnets_projects (poolWithStatus (some [realized1, realized2]))).elim
      (fun m hm => ⟨m, hm.1,
        hm.2.2.2.1 (by decide) realized1 (by decide),
        hm.2.2.2.1 (by decide) realized2 (by decide)⟩)⟩

/-! ## Owner reference -/

/-- C10, as stated, fails: on a pool whose owner references are an empty,
non-nil list, the pool submitted by `AddSubnetToIPPool` still has no owner
reference. -/
theorem AddSubnetToIPPool_empty_owners_stay_empty :
    poolEmptyOwners.OwnerReferences.len = 0 ∧
      nodeNoCIDR.Name ∉ specNames poolEmptyOwners ∧
      (AddSubnetToIPPool sampleConsts acceptAll nodeNoCIDR (.v1alpha1 poolEmptyOwners)
          sampleOwner).updates.map (fun q => q.OwnerReferences) = [some []] ∧
      (AddSubnetToIPPool sampleConsts acceptAll nodeBothCIDR (.v1alpha1 poolEmptyOwners)
          sampleOwner).updates.map (fun q => q.OwnerReferences) = [some []] := by
  decide

/-- C10, amended: for a pool with no request named `node.Name` whose owner
references are absent (nil), `AddSubnetToIPPool` submits one pool, whose owner
references are exactly the given one; this holds for every node, also one that
carries a pod CIDR, for which no request is appended. -/
theorem AddSubnetToIPPool_sets_owner_when_nil (h : HelperConsts) (c : Clients) (node : Node)
    (ipp : IPPool) (ownerRef : OwnerReference)
    (hnil : ipp.OwnerReferences = none)
    (hnr : node.Name ∉ specNames ipp) :
    ∃ q : IPPool, (AddSubnetToIPPool h c node (.v1alpha1 ipp) ownerRef).updates = [q] ∧
      q.OwnerReferences = some [ownerRef] := by
  have hreq := (alreadyRequested_false_iff node.Name ipp.Spec.Subnets.elems).2 hnr
  refine ⟨_, (add_not_requested h c node ipp ownerRef hreq).1, ?_⟩
  rw [newIppOf_ownerReferences, if_pos hnil]

/-- Witness of the amended C10 on a node that carries a pod CIDR: the owner
reference is set and no request is appended. -/
theorem AddSubnetToIPPool_sets_owner_when_nil_witness :
    poolNode2.OwnerReferences = none ∧
      nodeBothCIDR.Name ∉ specNames poolNode2 ∧
      (AddSubnetToIPPool sampleConsts acceptAll nodeBothCIDR (.v1alpha1 poolNode2)
          sampleOwner).updates.map (fun q => q.Spec.Subnets) = [poolNode2.Spec.Subnets] ∧
      ∃ q : IPPool,
        (AddSubnetToIPPool sampleConsts acceptAll nodeBothCIDR (.v1alpha1 poolNode2)
          sampleOwner).updates = [q] ∧
        q.OwnerReferences = some [sampleOwner] :=
  ⟨by decide, by decide, by decide,
    AddSubnetToIPPool_sets_owner_when_nil sampleConsts acceptAll nodeBothCIDR poolNode2
      sampleOwner (by decide) (by decide)⟩

/-! ## Lemmas on errors and on the store -/

theorem GoError_Is_self (e : GoError) : e.Is e = true := by
  cases e <;> simp [GoError.Is]

theorem fail_message_ne_unknown (a b : String) :
    ¬ isUnknownPoolType (.errorf ("fail to update ippool " ++ a ++ " in namespace " ++ b)) := by
  have hhead : ∀ t : String,
      ("fail to update ippool " ++ a ++ " in namespace " ++ b = t) → t.data.head? = some 'f' := by
    intro t ht
    rw [← ht]
    simp [String.data_append]
  rintro (h1 | h1)
  · have := hhead _ (GoError.errorf.inj h1)
    simp at this
  · have := hhead _ (GoError.errorf.inj h1)
    simp at this

theorem Store_lookup_append_new (s : Store) (q : IPPool)
    (hfree : s.lookup q.Namespace q.Name = none) :
    Store.lookup (s ++ [q]) q.Namespace q.Name = some q := by
  unfold Store.lookup at hfree ⊢
  rw [List.find?_append, hfree]
  simp

/-! ## Looking up and creating the pool -/

/-- C11: the pool `CreateIPPool` submits for creation has an empty
`spec.subnets`, exactly one owner reference, the given one, the namespace
`clusterNS` and the name `IppoolNameFromClusterName(clusterName)`; it is
submitted once, in the namespace `clusterNS`, whatever the client answers. -/
theorem CreateIPPool_submits (IppoolNameFromClusterName : String → String) (c : Clients)
    (clusterNS clusterName : String) (ownerRef : OwnerReference) :
    ∃ q : IPPool,
      (CreateIPPool IppoolNameFromClusterName c clusterNS clusterName ownerRef).creates
        = [(clusterNS, q)] ∧
      q.Spec.Subnets = some [] ∧ q.OwnerReferences = some [ownerRef] ∧
      q.Namespace = clusterNS ∧ q.Name = IppoolNameFromClusterName clusterName := by
  simp only [CreateIPPool]
  cases c.Create clusterNS _ <;> exact ⟨_, rfl, rfl, rfl, rfl, rfl⟩

/-- C12: `GetIPPool` asks the client for the key (`clusterNS`,
`IppoolNameFromClusterName(clusterName)`), the key of the pool `CreateIPPool`
submits; on a store, after a `CreateIPPool` that returned no error, `GetIPPool`
for the same namespace and cluster name returns the created pool and no
error. -/
theorem GetIPPool_finds_created (IppoolNameFromClusterName : String → String) (s : Store)
    (clusterNS clusterName : String) (ownerRef : OwnerReference) :
    (∀ c : Clients, (GetIPPool IppoolNameFromClusterName c clusterNS clusterName).gets
        = [(clusterNS, IppoolNameFromClusterName clusterName)]) ∧
      (∀ c : Clients, ∃ q : IPPool,
        (CreateIPPool IppoolNameFromClusterName c clusterNS clusterName ownerRef).creates
          = [(clusterNS, q)] ∧
        (q.Namespace, q.Name) = (clusterNS, IppoolNameFromClusterName clusterName)) ∧
      ((CreateIPPool IppoolNameFromClusterName (storeClients s) clusterNS clusterName
          ownerRef).err = none →
        ∃ q : IPPool,
          (CreateIPPool IppoolNameFromClusterName (storeClients s) clusterNS clusterName
            ownerRef).ippool = some (.v1alpha1 q) ∧
          (GetIPPool IppoolNameFromClusterName
            (storeClients (s.afterCreate
              (CreateIPPool IppoolNameFromClusterName (storeClients s) clusterNS clusterName
                ownerRef)))
            clusterNS clusterName).ippool = some (.v1alpha1 q) ∧
          (GetIPPool IppoolNameFromClusterName
            (storeClients (s.afterCreate
              (CreateIPPool IppoolNameFromClusterName (storeClients s) clusterNS clusterName
                ownerRef)))
            clusterNS clusterName).err = none) := by
  refine ⟨?_, ?_, ?_⟩
  · intro c
    unfold GetIPPool
    split <;> rfl
  · intro c
    simp only [CreateIPPool]
    cases c.Create clusterNS _ <;> exact ⟨_, rfl, rfl⟩
  · intro hok
    cases hfree : s.lookup clusterNS (IppoolNameFromClusterName clusterName) with
    | some p =>
      simp [CreateIPPool, storeClients, hfree] at hok
    | none =>
      have hcreate : CreateIPPool IppoolNameFromClusterName (storeClients s) clusterNS
          clusterName ownerRef
          = { ippool := some (.v1alpha1
                { Name := IppoolNameFromClusterName clusterName, Namespace := clusterNS,
                  OwnerReferences := some [ownerRef], Spec := { Subnets := some [] },
                  Status := { Subnets := none } }),
              err := none,
              creates := [(clusterNS,
                { Name := IppoolNameFromClusterName clusterName, Namespace := clusterNS,
                  OwnerReferences := some [ownerRef], Spec := { Subnets := some [] },
                  Status := { Subnets := none } })] } := by
        simp [CreateIPPool, storeClients, hfree]
      rw [hcreate]
      have hnew := Store_lookup_append_new s
        { Name := IppoolNameFromClusterName clusterName, Namespace := clusterNS,
          OwnerReferences := some [ownerRef], Spec := { Subnets := some [] },
          Status := { Subnets := none } } hfree
      refine ⟨_, rfl, ?_, ?_⟩ <;>
        simp [GetIPPool, storeClients, Store.afterCreate, hnew]

/-- Witness of C12 on an empty store. -/
theorem GetIPPool_finds_created_witness :
    (CreateIPPool sampleIppoolName (storeClients []) "ns-1" "cluster-1" sampleOwner).err = none ∧
      ∃ q : IPPool,
        (CreateIPPool sampleIppoolName (storeClients []) "ns-1" "cluster-1" sampleOwner).ippool
          = some (.v1alpha1 q) ∧
        (GetIPPool sampleIppoolName
          (storeClients (Store.afterCreate []
            (CreateIPPool sampleIppoolName (storeClients []) "ns-1" "cluster-1" sampleOwner)))
          "ns-1" "cluster-1").ippool = some (.v1alpha1 q) ∧
        (GetIPPool sampleIppoolName
          (storeClients (Store.afterCreate []
            (CreateIPPool sampleIppoolName (storeClients []) "ns-1" "cluster-1" sampleOwner)))
          "ns-1" "cluster-1").err = none :=
  ⟨by decide,
    (GetIPPool_finds_created sampleIppoolName [] "ns-1" "cluster-1" sampleOwner).2.2 (by decide)⟩

/-! ## Errors -/

/-- C13: on a handle that does not hold a v1alpha1 `IPPool`, `GetIPPoolSubnets`
(with a nil map), `AddSubnetToIPPool` and `DeleteSubnetFromIPPool` each return
an unknown-pool-type error and submit no update; on a handle that holds one,
none of them returns such an error. -/
theorem unknown_pool_type_reported (h : HelperConsts) (c : Clients) (node : Node)
    (ownerRef : OwnerReference) (subnetName typeName : String) (ipp : IPPool) :
    ((GetIPPoolSubnets (.other typeName)).subs = none ∧
        ∃ e, (GetIPPoolSubnets (.other typeName)).err = some e ∧ isUnknownPoolType e) ∧
      ((AddSubnetToIPPool h c node (.other typeName) ownerRef).updates = [] ∧
        ∃ e, (AddSubnetToIPPool h c node (.other typeName) ownerRef).err = some e ∧
          isUnknownPoolType e) ∧
      ((DeleteSubnetFromIPPool c subnetName (.other typeName)).updates = [] ∧
        ∃ e, (DeleteSubnetFromIPPool c subnetName (.other typeName)).err = some e ∧
          isUnknownPoolType e) ∧
      (∀ e, (GetIPPoolSubnets (.v1alpha1 ipp)).err = some e → ¬ isUnknownPoolType e) ∧
      (∀ e, (AddSubnetToIPPool h c node (.v1alpha1 ipp) ownerRef).err = some e →
        ¬ isUnknownPoolType e) ∧
      (∀ e, (DeleteSubnetFromIPPool c subnetName (.v1alpha1 ipp)).err = some e →
        ¬ isUnknownPoolType e) := by
  refine ⟨⟨rfl, _, rfl, Or.inl rfl⟩, ⟨rfl, _, rfl, Or.inr rfl⟩, ⟨rfl, _, rfl, Or.inl rfl⟩,
    ?_, ?_, ?_⟩
  · intro e he
    simp [GetIPPoolSubnets] at he
  · intro e he
    cases hreq : alreadyRequested node.Name ipp.Spec.Subnets.elems with
    | true =>
      rw [add_requested h c node ipp ownerRef hreq] at he
      cases he
    | false =>
      unfold AddSubnetToIPPool at he
      simp only [hreq, Bool.false_eq_true, if_false] at he
      cases hu : UpdateIPPool c (newIppOf h node ipp ownerRef) with
      | error e2 =>
        simp only [hu, Option.some.injEq] at he
        subst he
        rintro (h1 | h1) <;> cases h1
      | ok p =>
        simp only [hu] at he
        cases he
  · intro e he
    simp only [DeleteSubnetFromIPPool] at he
    split at he
    · simp only [Option.some.injEq] at he
      subst he
      exact fail_message_ne_unknown _ _
    · cases he

/-- Witness of C13: on a v1alpha1 pool whose update is rejected,
`DeleteSubnetFromIPPool` returns an error, and it is not an unknown-pool-type
error. -/
theorem unknown_pool_type_reported_witness :
    (DeleteSubnetFromIPPool (rejectAll (.upstream "conflict")) "node-1"
        (.v1alpha1 poolNode1)).err
      = some (.errorf "fail to update ippool ippool-1 in namespace ns-1") ∧
      ¬ isUnknownPoolType (.errorf "fail to update ippool ippool-1 in namespace ns-1") :=
  ⟨by decide,
    (unknown_pool_type_reported sampleConsts (rejectAll (.upstream "conflict")) nodeNoCIDR
      sampleOwner "node-1" "v1alpha2" poolNode1).2.2.2.2.2 _ (by decide)⟩

/-- C14 fails on the code: when the update is rejected with an error,
`DeleteSubnetFromIPPool` makes its one update attempt and returns an error made
without `%w`, from which the error of the update cannot be recovered. -/
theorem DeleteSubnetFromIPPool_drops_update_error :
    (DeleteSubnetFromIPPool (rejectAll (.upstream "conflict")) "node-1"
        (.v1alpha1 poolNode1)).updates.length = 1 ∧
      (DeleteSubnetFromIPPool (rejectAll (.upstream "conflict")) "node-1"
          (.v1alpha1 poolNode1)).err
        = some (.errorf "fail to update ippool ippool-1 in namespace ns-1") ∧
      (GoError.errorf "fail to update ippool ippool-1 in namespace ns-1").Unwrap = none ∧
      (GoError.errorf "fail to update ippool ippool-1 in namespace ns-1").Is
        (.upstream "conflict") = false := by
  decide

/-- C15: on a pool with no request named `node.Name`, when the update call
answers with an error `e`, `AddSubnetToIPPool` has made exactly one update
attempt and returns an error that wraps `e`; on every pool it returns nil
exactly when it skipped the write or the update succeeded. -/
theorem AddSubnetToIPPool_wraps_update_error (h : HelperConsts) (c : Clients) (node : Node)
    (ipp : IPPool) (ownerRef : OwnerReference) :
    (∀ e : GoError, node.Name ∉ specNames ipp →
      UpdateIPPool c (newIppOf h node ipp ownerRef) = .error e →
      (AddSubnetToIPPool h c node (.v1alpha1 ipp) ownerRef).updates.length = 1 ∧
      ∃ err, (AddSubnetToIPPool h c node (.v1alpha1 ipp) ownerRef).err = some err ∧
        err.Unwrap = some e ∧ err.Is e = true) ∧
      ((AddSubnetToIPPool h c node (.v1alpha1 ipp) ownerRef).err = none ↔
        (node.Name ∈ specNames ipp ∨
          ∃ p, UpdateIPPool c (newIppOf h node ipp ownerRef) = .ok p)) := by
  constructor
  · intro e hnr hfail
    have hreq := (alreadyRequested_false_iff node.Name ipp.Spec.Subnets.elems).2 hnr
    refine ⟨by rw [(add_not_requested h c node ipp ownerRef hreq).1]; rfl, ?_⟩
    unfold AddSubnetToIPPool
    simp only [hreq, Bool.false_eq_true, if_false, hfail]
    exact ⟨_, rfl, rfl, by simp [GoError.Is, GoError_Is_self]⟩
  · cases hreq : alreadyRequested node.Name ipp.Spec.Subnets.elems with
    | true =>
      have hmem := (alreadyRequested_iff_mem _ _).1 hreq
      rw [add_requested h c node ipp ownerRef hreq]
      exact ⟨fun _ => Or.inl hmem, fun _ => rfl⟩
    | false =>
      have hnot : node.Name ∉ specNames ipp := (alreadyRequested_false_iff _ _).1 hreq
      unfold AddSubnetToIPPool
      simp only [hreq, Bool.false_eq_true, if_false]
      cases hu : UpdateIPPool c (newIppOf h node ipp ownerRef) with
      | error e => simp [hnot]
      | ok p => simp

/-- Witness of C15: a rejected update on a pool without the node's request. -/
theorem AddSubnetToIPPool_wraps_update_error_witness :
    nodeNoCIDR.Name ∉ specNames poolNode2 ∧
      (AddSubnetToIPPool sampleConsts (rejectAll (.upstream "conflict")) nodeNoCIDR
        (.v1alpha1 poolNode2) sampleOwner).updates.length = 1 ∧
      ∃ err, (AddSubnetToIPPool sampleConsts (rejectAll (.upstream "conflict")) nodeNoCIDR
          (.v1alpha1 poolNode2) sampleOwner).err = some err ∧
        err.Unwrap = some (.upstream "conflict") ∧ err.Is (.upstream "conflict") = true :=
  ⟨by decide,
    (AddSubnetToIPPool_wraps_update_error sampleConsts (rejectAll (.upstream "conflict"))
      nodeNoCIDR poolNode2 sampleOwner).1 (.upstream "conflict") (by decide) rfl⟩

/-! ## Lemmas on the resolution of a node -/

theorem parseProviderID_prefix (uuid : String) :
    parseProviderID (providerPrefix ++ uuid) = some uuid := by
  unfold parseProviderID
  rw [if_pos]
  · simp [String.data_append]
  · simp [String.data_append]

theorem find_the_one {α : Type} (p : α → Bool) (l : List α) (x : α) (hx : x ∈ l)
    (hp : p x = true) (huniq : ∀ y ∈ l, p y = true → y = x) : l.find? p = some x := by
  cases hf : l.find? p with
  | none => simpa [hp] using List.find?_eq_none.1 hf x hx
  | some y =>
    rw [huniq y (List.mem_of_find?_eq_some hf) (List.find?_some hf)]

theorem ResolveByNodeName_found (c : VMClient) (ns nodeName : String)
    (vms : List VirtualMachine) (vm : VirtualMachine)
    (hread : c.VirtualMachines ns = .ok vms) (hvm : IsTheVMNamed vms nodeName vm)
    (hid : vm.BiosUUID ≠ "") : ResolveByNodeName c ns nodeName = .found vm := by
  have hf : vms.find? (fun v => decide (v.Name = nodeName)) = some vm :=
    find_the_one _ vms vm hvm.1 (by simp [hvm.2.1]) (fun y hy hp => hvm.2.2 y hy (by simpa using hp))
  simp [ResolveByNodeName, hread, hf, classify, hid]

theorem ResolveByNodeName_empty (c : VMClient) (ns nodeName : String)
    (vms : List VirtualMachine) (vm : VirtualMachine)
    (hread : c.VirtualMachines ns = .ok vms) (hvm : IsTheVMNamed vms nodeName vm)
    (hid : vm.BiosUUID = "") : ResolveByNodeName c ns nodeName = .emptyInstanceID := by
  have hf : vms.find? (fun v => decide (v.Name = nodeName)) = some vm :=
    find_the_one _ vms vm hvm.1 (by simp [hvm.2.1]) (fun y hy hp => hvm.2.2 y hy (by simpa using hp))
  simp [ResolveByNodeName, hread, hf, classify, hid]

theorem ResolveByNodeName_notFound (c : VMClient) (ns nodeName : String)
    (vms : List VirtualMachine) (hread : c.VirtualMachines ns = .ok vms)
    (hnone : ∀ v ∈ vms, v.Name ≠ nodeName) : ResolveByNodeName c ns nodeName = .notFound := by
  have hf : vms.find? (fun v => decide (v.Name = nodeName)) = none :=
    List.find?_eq_none.2 (fun v hv => by simpa using hnone v hv)
  simp [ResolveByNodeName, hread, hf, classify]

theorem ResolveByProviderID_some (c : VMClient) (ns uuid : String)
    (vms : List VirtualMachine) (hread : c.VirtualMachines ns = .ok vms)
    (hsome : ∃ v ∈ vms, v.BiosUUID = uuid) (hne : uuid ≠ "") :
    ∃ vm ∈ vms, vm.BiosUUID = uuid ∧
      vms.find? (fun v => decide (v.BiosUUID = uuid)) = some vm ∧
      ResolveByProviderID c ns (providerPrefix ++ uuid) = .found vm := by
  cases hf : vms.find? (fun v => decide (v.BiosUUID = uuid)) with
  | none =>
    obtain ⟨v, hv, hu⟩ := hsome
    simpa [hu] using List.find?_eq_none.1 hf v hv
  | some vm =>
    have hu : vm.BiosUUID = uuid := by simpa using List.find?_some hf
    have hid : vm.BiosUUID ≠ "" := by rw [hu]; exact hne
    refine ⟨vm, List.mem_of_find?_eq_some hf, hu, rfl, ?_⟩
    simp [ResolveByProviderID, parseProviderID_prefix, hread, hf, classify, hid]

theorem ResolveByProviderID_empty (c : VMClient) (ns uuid : String)
    (vms : List VirtualMachine) (hread : c.VirtualMachines ns = .ok vms)
    (hsome : ∃ v ∈ vms, v.BiosUUID = uuid) (hempty : uuid = "") :
    ResolveByProviderID c ns (providerPrefix ++ uuid) = .emptyInstanceID := by
  cases hf : vms.find? (fun v => decide (v.BiosUUID = uuid)) with
  | none =>
    obtain ⟨v, hv, hu⟩ := hsome
    simpa [hu] using List.find?_eq_none.1 hf v hv
  | some vm =>
    have hu : vm.BiosUUID = uuid := by simpa using List.find?_some hf
    have hid : vm.BiosUUID = "" := by rw [hu]; exact hempty
    simp [ResolveByProviderID, parseProviderID_prefix, hread, hf, classify, hid]

theorem ResolveByProviderID_found (c : VMClient) (ns uuid : String)
    (vms : List VirtualMachine) (vm : VirtualMachine)
    (hread : c.VirtualMachines ns = .ok vms) (hvm : IsTheVMWithUUID vms uuid vm)
    (hne : uuid ≠ "") : ResolveByProviderID c ns (providerPrefix ++ uuid) = .found vm := by
  obtain ⟨v, hv, hu, _, hres⟩ := ResolveByProviderID_some c ns uuid vms hread
    ⟨vm, hvm.1, hvm.2.1⟩ hne
  rw [hres, hvm.2.2 v hv hu]

theorem ResolveByProviderID_notFound (c : VMClient) (ns uuid : String)
    (vms : List VirtualMachine) (hread : c.VirtualMachines ns = .ok vms)
    (hnone : ∀ v ∈ vms, v.BiosUUID ≠ uuid) :
    ResolveByProviderID c ns (providerPrefix ++ uuid) = .notFound := by
  have hf : vms.find? (fun v => decide (v.BiosUUID = uuid)) = none :=
    List.find?_eq_none.2 (fun v hv => by simpa using hnone v hv)
  simp [ResolveByProviderID, parseProviderID_prefix, hread, hf, classify]

/-! ## Instances -/

/-- C16: for the VM-CR a node name or a provider ID resolves to (the VM-CR of
that name, or of that `BiosUUID`, with a non-empty `BiosUUID`), `NodeAddresses`
and `NodeAddressesByProviderID` return its addresses as a non-nil sequence and
no error: the empty sequence when neither host nor IP is set, and exactly the
InternalIP entry with `PrimaryIP4` followed by the Hostname entry with the
empty string when both are set; when no VM-CR resolves, because none matches
or because the match has an empty `BiosUUID`, they return a nil sequence and
`InstanceNotFound`. -/
theorem NodeAddresses_of_resolved (i : instances) (vms : List VirtualMachine)
    (vm : VirtualMachine) (nodeName uuid : String)
    (hread : i.vmClient.VirtualMachines i.clusterNS = .ok vms) :
    (IsTheVMNamed vms nodeName vm → vm.BiosUUID ≠ "" →
        i.NodeAddresses nodeName = (some (createNodeAddresses vm), none)) ∧
      (IsTheVMWithUUID vms uuid vm → uuid ≠ "" →
        i.NodeAddressesByProviderID (providerPrefix ++ uuid)
          = (some (createNodeAddresses vm), none)) ∧
      (vm.PrimaryIP4 = "" → vm.Host = "" → createNodeAddresses vm = []) ∧
      (vm.PrimaryIP4 ≠ "" → vm.Host ≠ "" →
        createNodeAddresses vm
          = [{ Kind := .InternalIP, Address := vm.PrimaryIP4 },
             { Kind := .Hostname, Address := "" }]) ∧
      ((∀ v ∈ vms, v.Name ≠ nodeName) →
        i.NodeAddresses nodeName = (none, some InstanceNotFound)) ∧
      ((∀ v ∈ vms, v.BiosUUID ≠ uuid) →
        i.NodeAddressesByProviderID (providerPrefix ++ uuid)
          = (none, some InstanceNotFound)) ∧
      (IsTheVMNamed vms nodeName vm → vm.BiosUUID = "" →
        i.NodeAddresses nodeName = (none, some InstanceNotFound)) ∧
      ((∃ v ∈ vms, v.BiosUUID = uuid) → uuid = "" →
        i.NodeAddressesByProviderID (providerPrefix ++ uuid)
          = (none, some InstanceNotFound)) := by
  refine ⟨?_, ?_, ?_, ?_, ?_, ?_, ?_, ?_⟩
  · intro hvm hid
    simp [instances.NodeAddresses, ResolveByNodeName_found _ _ _ vms vm hread hvm hid,
      addressesOf]
  · intro hvm hne
    simp [instances.NodeAddressesByProviderID,
      ResolveByProviderID_found _ _ _ vms vm hread hvm hne, addressesOf]
  · intro hip hhost
    simp [createNodeAddresses, hip, hhost]
  · intro hip hhost
    simp [createNodeAddresses, hip, hhost]
  · intro hnone
    simp [instances.NodeAddresses, ResolveByNodeName_notFound _ _ _ vms hread hnone,
      addressesOf]
  · intro hnone
    simp [instances.NodeAddressesByProviderID,
      ResolveByProviderID_notFound _ _ _ vms hread hnone, addressesOf]
  · intro hvm hid
    simp [instances.NodeAddresses, ResolveByNodeName_empty _ _ _ vms vm hread hvm hid,
      addressesOf]
  · intro hsome hempty
    simp [instances.NodeAddressesByProviderID,
      ResolveByProviderID_empty _ _ _ vms hread hsome hempty, addressesOf]

/-- Witness of C16 on the VM-CR of the tests that has an IP and a host, and on
a VM-CR of that name whose `BiosUUID` is empty. -/
theorem NodeAddresses_of_resolved_witness :
    IsTheVMWithUUID [createTestVMWithVMIPAndHost "test-vm" testClusterNameSpace testVMUUID]
        testVMUUID (createTestVMWithVMIPAndHost "test-vm" testClusterNameSpace testVMUUID) ∧
      (testInstances (createTestVMWithVMIPAndHost "test-vm" testClusterNameSpace
          testVMUUID)).NodeAddressesByProviderID (providerPrefix ++ testVMUUID)
        = (some (createNodeAddresses
            (createTestVMWithVMIPAndHost "test-vm" testClusterNameSpace testVMUUID)), none) ∧
      createNodeAddresses (createTestVMWithVMIPAndHost "test-vm" testClusterNameSpace testVMUUID)
        = [{ Kind := .InternalIP, Address := "1.2.3.4" }, { Kind := .Hostname, Address := "" }] ∧
      (testInstances (createTestVMWithVMIPAndHost "test-vm" testClusterNameSpace
          "")).NodeAddresses "test-vm" = (none, some InstanceNotFound) ∧
      (testInstances (createTestVMWithVMIPAndHost "test-vm" testClusterNameSpace
          "")).NodeAddressesByProviderID (providerPrefix ++ "")
        = (none, some InstanceNotFound) := by
  have E := NodeAddresses_of_resolved
    (testInstances (createTestVMWithVMIPAndHost "test-vm" testClusterNameSpace ""))
    [createTestVMWithVMIPAndHost "test-vm" testClusterNameSpace ""]
    (createTestVMWithVMIPAndHost "test-vm" testClusterNameSpace "")
    "test-vm" "" rfl
  have T := NodeAddresses_of_resolved
    (testInstances (createTestVMWithVMIPAndHost "test-vm" testClusterNameSpace testVMUUID))
    [createTestVMWithVMIPAndHost "test-vm" testClusterNameSpace testVMUUID]
    (createTestVMWithVMIPAndHost "test-vm" testClusterNameSpace testVMUUID)
    "test-vm" testVMUUID rfl
  have hvm : IsTheVMWithUUID
      [createTestVMWithVMIPAndHost "test-vm" testClusterNameSpace testVMUUID]
      testVMUUID (createTestVMWithVMIPAndHost "test-vm" testClusterNameSpace testVMUUID) := by
    unfold IsTheVMWithUUID
    decide
  exact ⟨hvm, T.2.1 hvm (by decide), T.2.2.2.1 (by decide) (by decide),
    E.2.2.2.2.2.2.1 (by unfold IsTheVMNamed; decide) (by decide),
    E.2.2.2.2.2.2.2 ⟨_, List.mem_singleton.2 rfl, rfl⟩ rfl⟩

/-- C17: for a provider ID made of the prefix and a non-empty UUID,
`InstanceExistsByProviderID` returns `(true, nil)` when some VM-CR of the
namespace has that `BiosUUID` and `(false, nil)` when none has: a plain
not-found never comes back as an error. -/
theorem InstanceExistsByProviderID_folds_notFound (i : instances)
    (vms : List VirtualMachine) (uuid : String)
    (hread : i.vmClient.VirtualMachines i.clusterNS = .ok vms) :
    ((∃ v ∈ vms, v.BiosUUID = uuid) → uuid ≠ "" →
        i.InstanceExistsByProviderID (providerPrefix ++ uuid) = (true, none)) ∧
      ((∀ v ∈ vms, v.BiosUUID ≠ uuid) →
        i.InstanceExistsByProviderID (providerPrefix ++ uuid) = (false, none)) := by
  constructor
  · intro hsome hne
    obtain ⟨vm, _, _, _, hres⟩ := ResolveByProviderID_some _ _ uuid vms hread hsome hne
    simp [instances.InstanceExistsByProviderID, hres]
  · intro hnone
    simp [instances.InstanceExistsByProviderID,
      ResolveByProviderID_notFound _ _ _ vms hread hnone]

/-- Witness of C17 on the two cases of the tests. -/
theorem InstanceExistsByProviderID_folds_notFound_witness :
    (testInstances (createTestVM "test-vm" testClusterNameSpace
        testVMUUID)).InstanceExistsByProviderID (providerPrefix ++ testVMUUID) = (true, none) ∧
      (testInstances (createTestVM "test-vm" testClusterNameSpace
        "bogus")).InstanceExistsByProviderID (providerPrefix ++ testVMUUID) = (false, none) :=
  ⟨(InstanceExistsByProviderID_folds_notFound
      (testInstances (createTestVM "test-vm" testClusterNameSpace testVMUUID))
      [createTestVM "test-vm" testClusterNameSpace testVMUUID] testVMUUID rfl).1
      ⟨_, List.mem_singleton.2 rfl, rfl⟩ (by decide),
    (InstanceExistsByProviderID_folds_notFound
      (testInstances (createTestVM "test-vm" testClusterNameSpace "bogus"))
      [createTestVM "test-vm" testClusterNameSpace "bogus"] testVMUUID rfl).2 (by decide)⟩

/-- C18: for a provider ID made of the prefix and a non-empty UUID, when a
VM-CR of the namespace has that `BiosUUID`, `InstanceShutdownByProviderID`
returns `(true, nil)` exactly when its power state is PoweredOff and
`(false, nil)` otherwise; when none has, it returns false with
`InstanceNotFound`, which is not `(false, nil)`. -/
theorem InstanceShutdownByProviderID_keeps_notFound (i : instances)
    (vms : List VirtualMachine) (vm : VirtualMachine) (uuid : String)
    (hread : i.vmClient.VirtualMachines i.clusterNS = .ok vms) :
    (IsTheVMWithUUID vms uuid vm → uuid ≠ "" →
        (i.InstanceShutdownByProviderID (providerPrefix ++ uuid) = (true, none) ↔
          vm.PowerState = .PoweredOff) ∧
        (vm.PowerState ≠ .PoweredOff →
          i.InstanceShutdownByProviderID (providerPrefix ++ uuid) = (false, none))) ∧
      ((∀ v ∈ vms, v.BiosUUID ≠ uuid) →
        i.InstanceShutdownByProviderID (providerPrefix ++ uuid)
          = (false, some InstanceNotFound) ∧
        i.InstanceShutdownByProviderID (providerPrefix ++ uuid) ≠ (false, none)) := by
  constructor
  · intro hvm hne
    have hres := ResolveByProviderID_found _ _ _ vms vm hread hvm hne
    constructor
    · simp [instances.InstanceShutdownByProviderID, hres]
    · intro hp
      simp [instances.InstanceShutdownByProviderID, hres, hp]
  · intro hnone
    have hres := ResolveByProviderID_notFound _ _ _ vms hread hnone
    simp [instances.InstanceShutdownByProviderID, hres]

/-- Witness of C18 on a powered-off VM-CR with the UUID of the tests. -/
theorem InstanceShutdownByProviderID_keeps_notFound_witness :
    IsTheVMWithUUID
        [{ createTestVM "test-vm" testClusterNameSpace testVMUUID with PowerState := .PoweredOff }]
        testVMUUID
        { createTestVM "test-vm" testClusterNameSpace testVMUUID with PowerState := .PoweredOff } ∧
      (testInstances
        { createTestVM "test-vm" testClusterNameSpace testVMUUID with
          PowerState := .PoweredOff }).InstanceShutdownByProviderID (providerPrefix ++ testVMUUID)
        = (true, none) := by
  have T := InstanceShutdownByProviderID_keeps_notFound
    (testInstances
      { createTestVM "test-vm" testClusterNameSpace testVMUUID with PowerState := .PoweredOff })
    [{ createTestVM "test-vm" testClusterNameSpace testVMUUID with PowerState := .PoweredOff }]
    { createTestVM "test-vm" testClusterNameSpace testVMUUID with PowerState := .PoweredOff }
    testVMUUID rfl
  have hvm : IsTheVMWithUUID
      [{ createTestVM "test-vm" testClusterNameSpace testVMUUID with PowerState := .PoweredOff }]
      testVMUUID
      { createTestVM "test-vm" testClusterNameSpace testVMUUID with
        PowerState := .PoweredOff } := by
    unfold IsTheVMWithUUID
    decide
  exact ⟨hvm, ((T.1 hvm (by decide)).1).2 rfl⟩

/-- C19: `InstanceID` by node name returns the `BiosUUID` of the VM-CR of that
name in the namespace and no error when that `BiosUUID` is non-empty; the
empty string and the designated empty-BiosUUID error, which is not
`InstanceNotFound`, when it is empty; the empty string and `InstanceNotFound`
when the namespace has no VM-CR of that name. -/
theorem InstanceID_by_node_name (i : instances) (vms : List VirtualMachine)
    (vm : VirtualMachine) (nodeName : String)
    (hread : i.vmClient.VirtualMachines i.clusterNS = .ok vms) :
    (IsTheVMNamed vms nodeName vm → vm.BiosUUID ≠ "" →
        i.InstanceID nodeName = (vm.BiosUUID, none)) ∧
      (IsTheVMNamed vms nodeName vm → vm.BiosUUID = "" →
        i.InstanceID nodeName = ("", some errBiosUUIDEmpty)) ∧
      errBiosUUIDEmpty ≠ InstanceNotFound ∧
      ((∀ v ∈ vms, v.Name ≠ nodeName) →
        i.InstanceID nodeName = ("", some InstanceNotFound)) := by
  refine ⟨?_, ?_, by decide, ?_⟩
  · intro hvm hid
    simp [instances.InstanceID, ResolveByNodeName_found _ _ _ vms vm hread hvm hid]
  · intro hvm hid
    simp [instances.InstanceID, ResolveByNodeName_empty _ _ _ vms vm hread hvm hid]
  · intro hnone
    simp [instances.InstanceID, ResolveByNodeName_notFound _ _ _ vms hread hnone]

/-- Witness of C19 on the cases of the tests: a VM-CR with a UUID, one in
another namespace, and one with an empty `BiosUUID`. -/
theorem InstanceID_by_node_name_witness :
    (testInstances (createTestVM "test-vm" testClusterNameSpace testVMUUID)).InstanceID "test-vm"
        = (testVMUUID, none) ∧
      (testInstances (createTestVM "test-vm" "bogus" testVMUUID)).InstanceID "test-vm"
        = ("", some InstanceNotFound) ∧
      (testInstances (createTestVM "test-vm" testClusterNameSpace "")).InstanceID "test-vm"
        = ("", some errBiosUUIDEmpty) :=
  ⟨(InstanceID_by_node_name
      (testInstances (createTestVM "test-vm" testClusterNameSpace testVMUUID))
      [createTestVM "test-vm" testClusterNameSpace testVMUUID]
      (createTestVM "test-vm" testClusterNameSpace testVMUUID) "test-vm" rfl).1
      (by unfold IsTheVMNamed; decide) (by decide),
    (InstanceID_by_node_name
      (testInstances (createTestVM "test-vm" "bogus" testVMUUID))
      [] (createTestVM "test-vm" "bogus" testVMUUID) "test-vm" rfl).2.2.2 (by decide),
    (InstanceID_by_node_name
      (testInstances (createTestVM "test-vm" testClusterNameSpace ""))
      [createTestVM "test-vm" testClusterNameSpace ""]
      (createTestVM "test-vm" testClusterNameSpace "") "test-vm" rfl).2.1
      (by unfold IsTheVMNamed; decide) (by decide)⟩

/-! ## Zones -/

/-- C20: for the VM-CR a provider ID (by `BiosUUID`) or a node name resolves
to (the VM-CR of that `BiosUUID`, or of that name, with a non-empty
`BiosUUID`), `GetZoneByProviderID` and `GetZoneByNodeName` return no error and
a failure domain equal to the value of the zone label, empty when the label is
absent; when no VM-CR resolves, because none matches or because the match has
an empty `BiosUUID`, they return `InstanceNotFound` and an empty failure
domain. -/
theorem GetZone_failure_domain (z : zones) (vms : List VirtualMachine)
    (vm : VirtualMachine) (nodeName uuid : String)
    (hread : z.vmClient.VirtualMachines z.clusterNS = .ok vms) :
    (IsTheVMWithUUID vms uuid vm → uuid ≠ "" →
        (z.GetZoneByProviderID (providerPrefix ++ uuid)).2 = none ∧
        (∀ value, vm.Labels.lookup zoneLabelKey = some value →
          (z.GetZoneByProviderID (providerPrefix ++ uuid)).1.FailureDomain = value) ∧
        (vm.Labels.lookup zoneLabelKey = none →
          (z.GetZoneByProviderID (providerPrefix ++ uuid)).1.FailureDomain = "")) ∧
      (IsTheVMNamed vms nodeName vm → vm.BiosUUID ≠ "" →
        (z.GetZoneByNodeName nodeName).2 = none ∧
        (∀ value, vm.Labels.lookup zoneLabelKey = some value →
          (z.GetZoneByNodeName nodeName).1.FailureDomain = value) ∧
        (vm.Labels.lookup zoneLabelKey = none →
          (z.GetZoneByNodeName nodeName).1.FailureDomain = "")) ∧
      ((∀ v ∈ vms, v.BiosUUID ≠ uuid) →
        z.GetZoneByProviderID (providerPrefix ++ uuid)
          = ({ FailureDomain := "" }, some InstanceNotFound)) ∧
      ((∀ v ∈ vms, v.Name ≠ nodeName) →
        z.GetZoneByNodeName nodeName = ({ FailureDomain := "" }, some InstanceNotFound)) ∧
      ((∃ v ∈ vms, v.BiosUUID = uuid) → uuid = "" →
        z.GetZoneByProviderID (providerPrefix ++ uuid)
          = ({ FailureDomain := "" }, some InstanceNotFound)) ∧
      (IsTheVMNamed vms nodeName vm → vm.BiosUUID = "" →
        z.GetZoneByNodeName nodeName = ({ FailureDomain := "" }, some InstanceNotFound)) := by
  refine ⟨?_, ?_, ?_, ?_, ?_, ?_⟩
  · intro hvm hne
    have hres := ResolveByProviderID_found _ _ _ vms vm hread hvm hne
    refine ⟨?_, ?_, ?_⟩
    · simp [zones.GetZoneByProviderID, hres, zoneOf]
    · intro value hl
      simp [zones.GetZoneByProviderID, hres, zoneOf, hl]
    · intro hl
      simp [zones.GetZoneByProviderID, hres, zoneOf, hl]
  · intro hvm hid
    have hres := ResolveByNodeName_found _ _ _ vms vm hread hvm hid
    refine ⟨?_, ?_, ?_⟩
    · simp [zones.GetZoneByNodeName, hres, zoneOf]
    · intro value hl
      simp [zones.GetZoneByNodeName, hres, zoneOf, hl]
    · intro hl
      simp [zones.GetZoneByNodeName, hres, zoneOf, hl]
  · intro hnone
    simp [zones.GetZoneByProviderID, ResolveByProviderID_notFound _ _ _ vms hread hnone, zoneOf]
  · intro hnone
    simp [zones.GetZoneByNodeName, ResolveByNodeName_notFound _ _ _ vms hread hnone, zoneOf]
  · intro hsome hempty
    simp [zones.GetZoneByProviderID, ResolveByProviderID_empty _ _ _ vms hread hsome hempty,
      zoneOf]
  · intro hvm hid
    simp [zones.GetZoneByNodeName, ResolveByNodeName_empty _ _ _ vms vm hread hvm hid, zoneOf]

/-- Witness of C20 on the VM-CR of the tests with the zone label `zone-a`, and
on a VM-CR with that label whose `BiosUUID` is empty. -/
theorem GetZone_failure_domain_witness :
    IsTheVMNamed
        [createTestVMWithZoneID "test-vm" testClusterNameSpace
          "421960e7-3041-f44a-4b3f-ed99748c12d0"]
        "test-vm"
        (createTestVMWithZoneID "test-vm" testClusterNameSpace
          "421960e7-3041-f44a-4b3f-ed99748c12d0") ∧
      ((testZones (createTestVMWithZoneID "test-vm" testClusterNameSpace
          "421960e7-3041-f44a-4b3f-ed99748c12d0")).GetZoneByNodeName "test-vm").1.FailureDomain
        = "zone-a" ∧
      (testZones (createTestVMWithZoneID "test-vm" testClusterNameSpace
          "421960e7-3041-f44a-4b3f-ed99748c12d0")).GetZoneByNodeName "fake-vm"
        = ({ FailureDomain := "" }, some InstanceNotFound) ∧
      (testZones (createTestVMWithZoneID "test-vm" testClusterNameSpace
          "")).GetZoneByNodeName "test-vm"
        = ({ FailureDomain := "" }, some InstanceNotFound) ∧
      (testZones (createTestVMWithZoneID "test-vm" testClusterNameSpace
          "")).GetZoneByProviderID (providerPrefix ++ "")
        = ({ FailureDomain := "" }, some InstanceNotFound) := by
  have E := GetZone_failure_domain
    (testZones (createTestVMWithZoneID "test-vm" testClusterNameSpace ""))
    [createTestVMWithZoneID "test-vm" testClusterNameSpace ""]
    (createTestVMWithZoneID "test-vm" testClusterNameSpace "")
    "test-vm" "" rfl
  have T := GetZone_failure_domain
    (testZones (createTestVMWithZoneID "test-vm" testClusterNameSpace
      "421960e7-3041-f44a-4b3f-ed99748c12d0"))
    [createTestVMWithZoneID "test-vm" testClusterNameSpace
      "421960e7-3041-f44a-4b3f-ed99748c12d0"]
    (createTestVMWithZoneID "test-vm" testClusterNameSpace
      "421960e7-3041-f44a-4b3f-ed99748c12d0")
  have hvm : IsTheVMNamed
      [createTestVMWithZoneID "test-vm" testClusterNameSpace
        "421960e7-3041-f44a-4b3f-ed99748c12d0"]
      "test-vm"
      (createTestVMWithZoneID "test-vm" testClusterNameSpace
        "421960e7-3041-f44a-4b3f-ed99748c12d0") := by
    unfold IsTheVMNamed
    decide
  exact ⟨hvm, ((T "test-vm" "" rfl).2.1 hvm (by decide)).2.1 "zone-a" (by decide),
    (T "fake-vm" "" rfl).2.2.2.1 (by decide),
    E.2.2.2.2.2 (by unfold IsTheVMNamed; decide) (by decide),
    E.2.2.2.2.1 ⟨_, List.mem_singleton.2 rfl, rfl⟩ rfl⟩

/-! ## The diff check and the realized-subnet map -/

/-- C21: for two pools, when `DiffIPPoolSubnets` is false, `GetIPPoolSubnets`
returns equal maps for them; put the other way, when the maps differ the diff
check is true. -/
theorem DiffIPPoolSubnets_sound_for_map (old cur : IPPool) :
    (DiffIPPoolSubnets (.v1alpha1 old) (.v1alpha1 cur) = false →
        (GetIPPoolSubnets (.v1alpha1 old)).subs = (GetIPPoolSubnets (.v1alpha1 cur)).subs) ∧
      ((GetIPPoolSubnets (.v1alpha1 old)).subs ≠ (GetIPPoolSubnets (.v1alpha1 cur)).subs →
        DiffIPPoolSubnets (.v1alpha1 old) (.v1alpha1 cur) = true) := by
  have key : DiffIPPoolSubnets (.v1alpha1 old) (.v1alpha1 cur) = false →
      (GetIPPoolSubnets (.v1alpha1 old)).subs = (GetIPPoolSubnets (.v1alpha1 cur)).subs := by
    intro hd
    have heq : old.Status.Subnets = cur.Status.Subnets := by
      rw [← deepEqualSubnets_iff]
      simpa [DiffIPPoolSubnets] using hd
    simp [GetIPPoolSubnets, heq]
  refine ⟨key, fun hne => ?_⟩
  cases hd : DiffIPPoolSubnets (.v1alpha1 old) (.v1alpha1 cur) with
  | true => rfl
  | false => exact absurd (key hd) hne

/-- Witness of C21 on two pools that differ in everything but `status.subnets`. -/
theorem DiffIPPoolSubnets_sound_for_map_witness :
    DiffIPPoolSubnets (.v1alpha1 { poolNode1 with Status := { Subnets := some [realized1] } })
        (.v1alpha1 (poolWithStatus (some [realized1]))) = false ∧
      (GetIPPoolSubnets
          (.v1alpha1 { poolNode1 with Status := { Subnets := some [realized1] } })).subs
        = (GetIPPoolSubnets (.v1alpha1 (poolWithStatus (some [realized1])))).subs :=
  ⟨by decide,
    (DiffIPPoolSubnets_sound_for_map
      { poolNode1 with Status := { Subnets := some [realized1] } }
      (poolWithStatus (some [realized1]))).1 (by decide)⟩

/-- C22: for a node with neither `PodCIDR` nor `PodCIDRs` set and a pool with no
request named `node.Name`, `DeleteSubnetFromIPPool` for `node.Name`, applied
to the pool `AddSubnetToIPPool` submitted, submits a pool whose `spec.subnets`
has the entries of the original pool, in their order. -/
theorem add_then_delete_round_trip (h : HelperConsts) (c1 c2 : Clients) (node : Node)
    (ipp : IPPool) (ownerRef : OwnerReference)
    (hcidr : node.Spec.PodCIDR = "" ∧ node.Spec.PodCIDRs.len = 0)
    (hnr : node.Name ∉ specNames ipp) :
    ∃ q1 q2 : IPPool,
      (AddSubnetToIPPool h c1 node (.v1alpha1 ipp) ownerRef).updates = [q1] ∧
      (DeleteSubnetFromIPPool c2 node.Name (.v1alpha1 q1)).updates = [q2] ∧
      q2.Spec.Subnets.elems = ipp.Spec.Subnets.elems := by
  have hreq := (alreadyRequested_false_iff node.Name ipp.Spec.Subnets.elems).2 hnr
  refine ⟨_, _, (add_not_requested h c1 node ipp ownerRef hreq).1,
    (delete_v1alpha1 c2 node.Name _).1, ?_⟩
  show List.filter _ (newIppOf h node ipp ownerRef).Spec.Subnets.elems = _
  rw [newIppOf_subnets, if_pos (Or.inl hcidr.1)]
  have happ : ∀ (sl : Slice SubnetRequest) (x : SubnetRequest),
      (sl.append x).elems = sl.elems ++ [x] := fun _ _ => rfl
  rw [happ, List.filter_append]
  have hkeep : ipp.Spec.Subnets.elems.filter (fun sub => decide (sub.Name ≠ node.Name))
      = ipp.Spec.Subnets.elems := by
    rw [List.filter_eq_self]
    intro sub hsub
    have : sub.Name ≠ node.Name := by
      intro e
      apply hnr
      rw [← e]
      exact List.mem_map_of_mem (fun sub => sub.Name) hsub
    simpa using this
  rw [hkeep]
  simp

/-- Witness of C22 on a pool that holds a request of another node. -/
theorem add_then_delete_round_trip_witness :
    (nodeNoCIDR.Spec.PodCIDR = "" ∧ nodeNoCIDR.Spec.PodCIDRs.len = 0) ∧
      nodeNoCIDR.Name ∉ specNames poolNode2 ∧
      ∃ q1 q2 : IPPool,
        (AddSubnetToIPPool sampleConsts acceptAll nodeNoCIDR (.v1alpha1 poolNode2)
          sampleOwner).updates = [q1] ∧
        (DeleteSubnetFromIPPool acceptAll nodeNoCIDR.Name (.v1alpha1 q1)).updates = [q2] ∧
        q2.Spec.Subnets.elems = poolNode2.Spec.Subnets.elems :=
  ⟨by decide, by decide,
    add_then_delete_round_trip sampleConsts acceptAll acceptAll nodeNoCIDR poolNode2 sampleOwner
      (by decide) (by decide)⟩

/-- C23: `DiffIPPoolSubnets` is false whenever one of its two handles does not
hold a v1alpha1 `IPPool`, whatever the other holds; its result is a boolean
only; for two v1alpha1 pools it is determined by their `status.subnets`, so
that pools with equal `status.subnets` are reported as not different. -/
theorem DiffIPPoolSubnets_reads_status_only (typeName : String) (x : NSXIPPool)
    (old cur old2 cur2 : IPPool) :
    DiffIPPoolSubnets (.other typeName) x = false ∧
      DiffIPPoolSubnets x (.other typeName) = false ∧
      (old.Status.Subnets = old2.Status.Subnets → cur.Status.Subnets = cur2.Status.Subnets →
        DiffIPPoolSubnets (.v1alpha1 old) (.v1alpha1 cur)
          = DiffIPPoolSubnets (.v1alpha1 old2) (.v1alpha1 cur2)) ∧
      (old.Status.Subnets = cur.Status.Subnets →
        DiffIPPoolSubnets (.v1alpha1 old) (.v1alpha1 cur) = false) := by
  refine ⟨rfl, ?_, ?_, ?_⟩
  · cases x <;> rfl
  · intro h1 h2
    simp [DiffIPPoolSubnets, h1, h2]
  · intro h1
    have hself : deepEqualSubnets cur.Status.Subnets cur.Status.Subnets = true :=
      (deepEqualSubnets_iff _ _).2 rfl
    simp [DiffIPPoolSubnets, h1, hself]

/-- Witness of C23 on two pools that differ in `spec.subnets` and in their owner
references and have the same `status.subnets`. -/
theorem DiffIPPoolSubnets_reads_status_only_witness :
    poolNode1.Spec.Subnets ≠ poolNode2.Spec.Subnets ∧
      poolNode1.OwnerReferences ≠ poolNode2.OwnerReferences ∧
      poolNode1.Status.Subnets = poolNode2.Status.Subnets ∧
      DiffIPPoolSubnets (.v1alpha1 poolNode1) (.v1alpha1 poolNode2) = false :=
  ⟨by decide, by decide, by decide,
    (DiffIPPoolSubnets_reads_status_only "v1alpha2" (.v1alpha1 poolNode1) poolNode1 poolNode2
      poolNode1 poolNode2).2.2.2 (by decide)⟩

/-- C24: for a pool whose `status.subnets` is nil and a pool whose
`status.subnets` is a non-nil list of length zero, `DiffIPPoolSubnets` is true
in either order, although `GetIPPoolSubnets` returns the same map, the empty
one, for both. -/
theorem DiffIPPoolSubnets_absent_versus_empty (absent empty : IPPool)
    (hnil : absent.Status.Subnets = none)
    (hnonnil : empty.Status.Subnets.isSome = true) (hlen : empty.Status.Subnets.len = 0) :
    DiffIPPoolSubnets (.v1alpha1 absent) (.v1alpha1 empty) = true ∧
      DiffIPPoolSubnets (.v1alpha1 empty) (.v1alpha1 absent) = true ∧
      (GetIPPoolSubnets (.v1alpha1 absent)).subs = some GoMap.make ∧
      (GetIPPoolSubnets (.v1alpha1 empty)).subs = some GoMap.make ∧
      (GetIPPoolSubnets (.v1alpha1 absent)).subs = (GetIPPoolSubnets (.v1alpha1 empty)).subs := by
  have hempty : empty.Status.Subnets = some [] := by
    cases hs : empty.Status.Subnets with
    | none => simp [hs] at hnonnil
    | some l =>
      rw [hs] at hlen
      have : l = [] := List.length_eq_zero.1 hlen
      rw [this]
  simp [DiffIPPoolSubnets, GetIPPoolSubnets, hnil, hempty, deepEqualSubnets, Slice.elems, getLoop]

/-- Witness of C24 on a pool with nil and a pool with empty `status.subnets`. -/
theorem DiffIPPoolSubnets_absent_versus_empty_witness :
    (poolWithStatus none).Status.Subnets = none ∧
      (poolWithStatus (some [])).Status.Subnets.isSome = true ∧
      (poolWithStatus (some [])).Status.Subnets.len = 0 ∧
      DiffIPPoolSubnets (.v1alpha1 (poolWithStatus none)) (.v1alpha1 (poolWithStatus (some [])))
        = true ∧
      (GetIPPoolSubnets (.v1alpha1 (poolWithStatus none))).subs
        = (GetIPPoolSubnets (.v1alpha1 (poolWithStatus (some [])))).subs :=
  ⟨rfl, rfl, rfl,
    (DiffIPPoolSubnets_absent_versus_empty (poolWithStatus none) (poolWithStatus (some []))
      rfl rfl rfl).1,
    (DiffIPPoolSubnets_absent_versus_empty (poolWithStatus none) (poolWithStatus (some []))
      rfl rfl rfl).2.2.2.2⟩

end IPPoolManager
